import Mathlib

/-!
Shallow embedding of the Bumpie_Meds pregnancy risk engine
(`src/services/pregnancy-safety-engine.js`, `src/services/pregnancy-interaction-checker.js`,
the pregnancy risk calculator module, and `src/utils/validators.js`).

JS numbers are modelled as `ℚ` (scores) and `ℤ` (weeks, returned integer scores);
`Math.round` is half-up rounding; `Math.max(...)` over a possibly-empty list is
modelled with `⊥` (`-Infinity`) in `WithBot ℤ`.  Fallible functions return
`Except String`, carrying the `Error` messages thrown by the source.  Fields of
the source's result objects that are pure presentation (free-text warnings,
alternatives, recommendation records, timestamps) and are touched by no claim are
omitted; every field that any claim mentions is modelled.
-/

deriving instance DecidableEq for Except

namespace Bumpie

/-- Rounding as in JS `Math.round`: half-up (ties toward positive infinity). -/
def jsRound (q : ℚ) : ℤ := ⌊q + 1/2⌋

/-- JS `o || d` for an optional string field: `undefined` and `""` are falsy. -/
def jsOrStr (o : Option String) (d : String) : String :=
  match o with
  | none => d
  | some s => if s = "" then d else s

/-- JS `Math.max(...xs)`: a fold starting from `-Infinity`, modelled as `⊥`. -/
def jsMax (l : List ℤ) : WithBot ℤ := l.foldl (fun a x => max a (x : WithBot ℤ)) ⊥

/-- `validateWeek` from `src/utils/validators.js`: throws unless `1 ≤ week ≤ 45`. -/
def validateWeek (w : ℤ) : Except String Unit :=
  if w < 1 ∨ w > 45 then .error s!"Week must be between 1 and 45, got {w}" else .ok ()

/-- One entry of the `TRIMESTERS` constant (name, closed week range, risk multiplier). -/
structure TrimesterInfo where
  name : String
  weeksLo : ℤ
  weeksHi : ℤ
  riskMultiplier : ℚ

/-- The `TRIMESTERS` constant of `pregnancy-safety-engine.js`. -/
structure TrimestersTable where
  FIRST : TrimesterInfo
  SECOND : TrimesterInfo
  THIRD : TrimesterInfo

def TRIMESTERS : TrimestersTable :=
  { FIRST := ⟨"1st Trimester", 1, 12, 3/2⟩
    SECOND := ⟨"2nd Trimester", 13, 27, 1⟩
    THIRD := ⟨"3rd Trimester", 28, 40, 6/5⟩ }

/-- Result of `getTrimester` (the spread of the matching `TRIMESTERS` entry plus
`number` and `week`; the descriptive text fields are omitted). -/
structure Trimester where
  number : ℕ
  name : String
  riskMultiplier : ℚ
  week : ℤ
deriving DecidableEq

/-- `getTrimester` from `pregnancy-safety-engine.js`. -/
def getTrimester (w : ℤ) : Except String Trimester :=
  match validateWeek w with
  | .error e => .error e
  | .ok _ =>
    if TRIMESTERS.FIRST.weeksLo ≤ w ∧ w ≤ TRIMESTERS.FIRST.weeksHi then
      .ok ⟨1, TRIMESTERS.FIRST.name, TRIMESTERS.FIRST.riskMultiplier, w⟩
    else if TRIMESTERS.SECOND.weeksLo ≤ w ∧ w ≤ TRIMESTERS.SECOND.weeksHi then
      .ok ⟨2, TRIMESTERS.SECOND.name, TRIMESTERS.SECOND.riskMultiplier, w⟩
    else if TRIMESTERS.THIRD.weeksLo ≤ w ∧ w ≤ TRIMESTERS.THIRD.weeksHi then
      .ok ⟨3, TRIMESTERS.THIRD.name, TRIMESTERS.THIRD.riskMultiplier, w⟩
    else .error s!"Invalid pregnancy week: {w}. Must be between 1-40."

/-- Result of `isCriticalPeriod` (the `developments`/`week` payload fields are omitted). -/
structure CriticalInfo where
  isCritical : Bool
  reason : String
  severity : String
deriving DecidableEq

/-- The `criticalWeeks` literal object inside `isCriticalPeriod`: reason and severity. -/
def criticalWeeks (w : ℤ) : Option (String × String) :=
  if w = 3 ∨ w = 4 then some ("Neural tube formation", "critical")
  else if w = 5 ∨ w = 6 then some ("Heart and limb development", "critical")
  else if w = 7 ∨ w = 8 then some ("Organ differentiation", "high")
  else if 37 ≤ w ∧ w ≤ 40 then some ("Full term - prepare for labor", "moderate")
  else none

/-- `isCriticalPeriod` from `pregnancy-safety-engine.js`: the first-trimester branch
returns before the week-specific table is consulted. -/
def isCriticalPeriod (w : ℤ) : Except String CriticalInfo :=
  match getTrimester w with
  | .error e => .error e
  | .ok t =>
    if t.number = 1 then
      .ok ⟨true, "First trimester - organ formation period", "high"⟩
    else
      match criticalWeeks w with
      | some rs => .ok ⟨true, rs.1, rs.2⟩
      | none => .ok ⟨false, "Not in a specifically critical period", "normal"⟩

/-- A per-trimester override object in medication data (`trimester1`/`2`/`3`):
the fields `calculateRiskScore` and `checkMedicationSafety` read. -/
structure TrimesterData where
  safe : Option Bool
  risk : Option String
deriving DecidableEq

/-- The `pregnancyCategory` object of a medication record. -/
structure PregCategory where
  fda : Option String
  trimester1 : Option TrimesterData
  trimester2 : Option TrimesterData
  trimester3 : Option TrimesterData
deriving DecidableEq

/-- A medication record from the injected reference store (`medications.json` is an
external collaborator; the store is a parameter everywhere below). -/
structure Medication where
  name : String
  genericName : String
  brandNames : List String
  pregnancyCategory : Option PregCategory
deriving DecidableEq

/-- One entry of the engine's `FDA_CATEGORIES` constant (fields used by scoring). -/
structure CategoryInfo where
  riskLevel : String
  baseScore : ℚ
deriving DecidableEq

/-- The engine's `FDA_CATEGORIES` object keyed by category letter: it has entries
for A, B, C, D and X only. -/
def FDA_CATEGORIES : String → Option CategoryInfo
  | "A" => some ⟨"low", 10⟩
  | "B" => some ⟨"low", 25⟩
  | "C" => some ⟨"moderate", 50⟩
  | "D" => some ⟨"high", 75⟩
  | "X" => some ⟨"critical", 95⟩
  | _ => none

/-- JS `toLowerCase()`, written structurally over the character list (equivalent
to `String.toLower`, which is defined by well-founded recursion). -/
def strToLower (s : String) : String := ⟨s.data.map Char.toLower⟩

/-- JS `trim()`: strips leading and trailing whitespace. -/
def strTrim (s : String) : String :=
  ⟨((s.data.dropWhile Char.isWhitespace).reverse.dropWhile Char.isWhitespace).reverse⟩

/-- `findMedication`: case-insensitive match of the trimmed name against generic
name, `name` field, or any brand name. -/
def findMedication (db : List Medication) (medicationName : String) : Option Medication :=
  let searchName := strTrim (strToLower medicationName)
  db.find? fun med =>
    (med.genericName ≠ "" && strToLower med.genericName == searchName) ||
    (med.name ≠ "" && strToLower med.name == searchName) ||
    med.brandNames.any (fun brand => strToLower brand == searchName)

/-- `validateMedication` from `validators.js`: requires truthy `name` and
`pregnancyCategory` fields. -/
def validateMedication (m : Medication) : Except String Unit :=
  if m.name = "" then .error "Medication missing required field: name"
  else if m.pregnancyCategory = none then .error "Medication missing required field: pregnancyCategory"
  else .ok ()

/-- `medication.pregnancyCategory?.[trimesterN]` lookup. -/
def trimesterDataFor (m : Medication) (n : ℕ) : Option TrimesterData :=
  m.pregnancyCategory.bind fun pc =>
    match n with
    | 1 => pc.trimester1
    | 2 => pc.trimester2
    | 3 => pc.trimester3
    | _ => none

/-- The effective FDA category string: `medication.pregnancyCategory?.fda || 'C'`. -/
def effFdaCategory (m : Medication) : String :=
  jsOrStr (m.pregnancyCategory.bind (·.fda)) "C"

/-- `calculateRiskScore` from `pregnancy-safety-engine.js`. -/
def calculateRiskScore (m : Medication) (w : ℤ) : Except String ℤ :=
  match validateMedication m with
  | .error e => .error e
  | .ok _ =>
  match validateWeek w with
  | .error e => .error e
  | .ok _ =>
  match getTrimester w with
  | .error e => .error e
  | .ok trimester =>
  match isCriticalPeriod w with
  | .error e => .error e
  | .ok critical =>
    let fdaCategory := effFdaCategory m
    match FDA_CATEGORIES fdaCategory with
    | none => .error ("Invalid FDA category: " ++ fdaCategory)
    | some categoryInfo =>
      let score1 : ℚ := categoryInfo.baseScore * trimester.riskMultiplier
      let score2 : ℚ :=
        if critical.isCritical then
          if critical.severity = "critical" then score1 * (13/10)
          else if critical.severity = "high" then score1 * (12/10)
          else if critical.severity = "moderate" then score1 * (11/10)
          else score1
        else score1
      let score3 : ℚ :=
        match trimesterDataFor m trimester.number with
        | none => score2
        | some td =>
          let s := if td.safe = some false then max score2 70 else score2
          if td.risk = some "critical" then max s 85
          else if td.risk = some "high" then max s 65
          else if td.risk = some "moderate" then max s 45
          else if td.risk = some "low" then min s 30
          else s
      .ok (min (jsRound score3) 100)

/-- `getRiskLevel` (single-medication tiers) from `pregnancy-safety-engine.js`. -/
def getRiskLevel (score : ℤ) : String :=
  if score ≤ 20 then "low"
  else if score ≤ 40 then "moderate"
  else if score ≤ 60 then "caution"
  else if score ≤ 80 then "high"
  else "critical"

/-- The found-medication payload of `checkMedicationSafety` (fields consumed by
`calculateSingleMedicationRisk` and by the claims; presentation fields omitted). -/
structure FoundSafety where
  medicationName : String
  genericName : String
  trimesterNumber : ℕ
  safe : Bool
  fdaCategory : String
  riskScore : ℤ
  riskLevel : String
deriving DecidableEq

/-- `checkMedicationSafety` returns either the not-found object or the full result. -/
inductive SafetyResult
  | notFound (medicationName : String)
  | found (r : FoundSafety)
deriving DecidableEq

/-- `checkMedicationSafety` from `pregnancy-safety-engine.js`. -/
def checkMedicationSafety (db : List Medication) (medicationName : String) (w : ℤ) :
    Except String SafetyResult :=
  if medicationName = "" then .error "Medication name is required and must be a string"
  else
  match validateWeek w with
  | .error e => .error e
  | .ok _ =>
  match findMedication db medicationName with
  | none => .ok (.notFound medicationName)
  | some medication =>
    match getTrimester w with
    | .error e => .error e
    | .ok trimester =>
    match isCriticalPeriod w with
    | .error e => .error e
    | .ok _critical =>
    match calculateRiskScore medication w with
    | .error e => .error e
    | .ok riskScore =>
      let riskLevel := getRiskLevel riskScore
      let fdaCategory := effFdaCategory medication
      let trimesterData := trimesterDataFor medication trimester.number
      let isSafe := decide (riskScore ≤ 40) && (trimesterData.bind (·.safe)) != some false
      .ok (.found
        { medicationName := medication.name
          genericName := medication.genericName
          trimesterNumber := trimester.number
          safe := isSafe
          fdaCategory := fdaCategory
          riskScore := riskScore
          riskLevel := riskLevel })

/-- One element of the `medicationRisks` list built by
`calculateSingleMedicationRisk` (fields the downstream aggregation reads;
fields absent on the not-found object are `none`). -/
structure MedRisk where
  found : Bool
  medicationName : String
  riskScore : Option ℤ
  riskLevel : String
  fdaCategory : Option String
  safe : Option Bool
deriving DecidableEq

/-- `calculateSingleMedicationRisk` from the pregnancy risk calculator module. -/
def calculateSingleMedicationRisk (db : List Medication) (medicationName : String) (w : ℤ) :
    Except String MedRisk :=
  match validateWeek w with
  | .error e => .error e
  | .ok _ =>
  match checkMedicationSafety db medicationName w with
  | .error e => .error e
  | .ok (.notFound n) =>
    .ok { found := false, medicationName := n, riskScore := none,
          riskLevel := "unknown", fdaCategory := none, safe := none }
  | .ok (.found s) =>
    .ok { found := true, medicationName := s.genericName, riskScore := some s.riskScore,
          riskLevel := s.riskLevel, fdaCategory := some s.fdaCategory, safe := some s.safe }

/-- The per-trimester risk map of an interaction rule (`trimesterRisks`). -/
structure TriRisks where
  t1 : String
  t2 : String
  t3 : String
deriving DecidableEq

/-- `interaction.trimesterRisks[n]` for a trimester number `n`. -/
def TriRisks.get (r : TriRisks) (n : ℕ) : Option String :=
  match n with
  | 1 => some r.t1
  | 2 => some r.t2
  | 3 => some r.t3
  | _ => none

/-- An entry of `PREGNANCY_INTERACTIONS` (fields consumed by the checker and the
composite calculator; free-text effect maps and substitution lists omitted). -/
structure InteractionRule where
  medications : List String
  severity : String
  reason : String
  trimesterRisks : TriRisks
  recommendation : String
deriving DecidableEq

/-- The `PREGNANCY_INTERACTIONS` table of `pregnancy-interaction-checker.js`,
keyed exactly by the source's literal keys. -/
def PREGNANCY_INTERACTIONS : String → Option InteractionRule
  | "ibuprofen_lisinopril" => some
      ⟨["Ibuprofen", "Lisinopril"], "critical",
       "Combined use significantly increases risk of renal failure in fetus",
       ⟨"high", "critical", "critical"⟩,
       "AVOID COMBINATION - Use safer alternatives"⟩
  | "ibuprofen_aspirin" => some
      ⟨["Ibuprofen", "Aspirin"], "high",
       "Increased bleeding risk, especially near delivery",
       ⟨"moderate", "high", "critical"⟩,
       "Avoid in 3rd trimester; use caution earlier"⟩
  | "sertraline_ibuprofen" => some
      ⟨["Sertraline", "Ibuprofen"], "high",
       "Both increase bleeding risk; synergistic effect during pregnancy",
       ⟨"moderate", "moderate", "high"⟩,
       "Avoid combination; use acetaminophen instead of NSAIDs"⟩
  | "atorvastatin_pregnancy" => some
      ⟨["Atorvastatin"], "critical",
       "Category X - Absolutely contraindicated in pregnancy",
       ⟨"critical", "critical", "critical"⟩,
       "DISCONTINUE IMMEDIATELY - Never use during pregnancy"⟩
  | "lisinopril_pregnancy" => some
      ⟨["Lisinopril"], "critical",
       "Causes fetal renal damage and death in 2nd/3rd trimesters",
       ⟨"high", "critical", "critical"⟩,
       "DISCONTINUE - Switch to pregnancy-safe antihypertensive"⟩
  | "losartan_pregnancy" => some
      ⟨["Losartan"], "critical",
       "Similar mechanism to ACE inhibitors - causes fetal harm",
       ⟨"high", "critical", "critical"⟩,
       "DISCONTINUE - Switch to safer blood pressure medication"⟩
  | _ => none

/-- The synthesized default rule for a category-X medication without a table entry. -/
def defaultRuleX (genericName : String) : InteractionRule :=
  ⟨[genericName], "critical", "Category X - Contraindicated in pregnancy",
   ⟨"critical", "critical", "critical"⟩, "DISCONTINUE IMMEDIATELY"⟩

/-- The synthesized default rule for a category-D medication without a table entry. -/
def defaultRuleD (genericName : String) : InteractionRule :=
  ⟨[genericName], "high", "Category D - Evidence of fetal risk",
   ⟨"high", "high", "high"⟩, "Avoid unless benefits outweigh risks"⟩

/-- An interaction finding pushed onto the `interactions` list: the `type` tag,
the spread rule, and the current-trimester annotations (`currentTrimesterRisk`
is only present on pairwise `drug_interaction` findings). -/
structure Finding where
  type : String
  rule : InteractionRule
  currentTrimester : ℕ
  currentTrimesterRisk : Option String
deriving DecidableEq

/-- The per-medication body of the solo contraindication loop of
`checkPregnancyInteractions`: for a found category-X (resp. category-D)
medication, the table rule for `<generic>_pregnancy` or the synthesized default,
together with whether the X branch (which forces severity `critical`) fired. -/
def soloInfo (db : List Medication) (tn : ℕ) (medName : String) : Option (Finding × Bool) :=
  match findMedication db medName with
  | none => none
  | some med =>
    let fda := med.pregnancyCategory.bind (·.fda)
    if fda = some "X" then
      let rule := (PREGNANCY_INTERACTIONS (strToLower med.genericName ++ "_pregnancy")).getD
        (defaultRuleX med.genericName)
      some (⟨"pregnancy_contraindication", rule, tn, none⟩, true)
    else if fda = some "D" then
      let rule := (PREGNANCY_INTERACTIONS (strToLower med.genericName ++ "_pregnancy")).getD
        (defaultRuleD med.genericName)
      some (⟨"pregnancy_high_risk", rule, tn, none⟩, false)
    else none

/-- One step of the solo loop: push the finding and update `highestSeverity`
(`critical` for the X branch; `high` for the D branch unless already critical). -/
def soloStep (db : List Medication) (tn : ℕ) (acc : List Finding × String) (medName : String) :
    List Finding × String :=
  match soloInfo db tn medName with
  | none => acc
  | some (f, isX) =>
    (acc.1 ++ [f], if isX then "critical" else if acc.2 = "critical" then acc.2 else "high")

/-- The ordered pairs visited by the nested `i < j` loops. -/
def pairsOf : List String → List (String × String)
  | [] => []
  | x :: rest => rest.map (fun y => (x, y)) ++ pairsOf rest

/-- Lexicographic character-list comparison by code points, as JS `sort()`
compares strings; written structurally so that it evaluates. -/
def strLeChars : List Char → List Char → Bool
  | [], _ => true
  | _ :: _, [] => false
  | a :: as, b :: bs =>
    if a < b then true
    else if b < a then false
    else strLeChars as bs

/-- String comparison used by the pairwise key sort. -/
def strLe (s1 s2 : String) : Bool := strLeChars s1.data s2.data

/-- The pairwise lookup: both generic names lowercased, sorted, joined by `_`. -/
def pairKey (g1 g2 : String) : String :=
  if strLe g1 g2 then g1 ++ "_" ++ g2 else g2 ++ "_" ++ g1

/-- The pairwise body: when both names resolve, look the sorted key up in the
table and build the `drug_interaction` finding. -/
def pairFinding (db : List Medication) (tn : ℕ) (a b : String) : Option Finding :=
  match findMedication db a, findMedication db b with
  | some med1, some med2 =>
    (PREGNANCY_INTERACTIONS
        (pairKey (strToLower med1.genericName) (strToLower med2.genericName))).map
      fun rule => ⟨"drug_interaction", rule, tn, rule.trimesterRisks.get tn⟩
  | _, _ => none

/-- The pairwise `highestSeverity` update of `checkPregnancyInteractions`. -/
def pairSevUpdate (s : String) (f : Finding) : String :=
  if f.rule.severity = "critical" ∨ f.currentTrimesterRisk = some "critical" then "critical"
  else if f.rule.severity = "high" ∧ s ≠ "critical" then "high"
  else if f.rule.severity = "moderate" ∧ s = "none" then "moderate"
  else s

/-- One step of the pairwise loop. -/
def pairStep (db : List Medication) (tn : ℕ) (acc : List Finding × String)
    (p : String × String) : List Finding × String :=
  match pairFinding db tn p.1 p.2 with
  | none => acc
  | some f => (acc.1 ++ [f], pairSevUpdate acc.2 f)

/-- `generateInteractionRecommendation` (the unused `interactions` parameter of the
source is dropped; emoji prefixes of the literals are omitted). -/
def generateInteractionRecommendation (severity : String) : String :=
  if severity = "critical" then
    "CRITICAL INTERACTIONS DETECTED: Immediate medical attention required. Do not take these medications together during pregnancy."
  else if severity = "high" then
    "SERIOUS INTERACTIONS: Consult your obstetrician before continuing these medications together."
  else if severity = "moderate" then
    "MODERATE INTERACTIONS: Discuss with your healthcare provider. Close monitoring may be needed."
  else
    "No significant pregnancy-specific interactions detected. Continue as directed by your provider."

/-- The result object of `checkPregnancyInteractions` (`assessmentDate` omitted). -/
structure InteractionResult where
  weekOfPregnancy : ℤ
  trimester : ℕ
  medications : List String
  interactionsFound : ℕ
  interactions : List Finding
  highestSeverity : String
  safe : Bool
  requiresProviderConsent : Bool
  requiresObstetrician : Bool
  recommendation : String
deriving DecidableEq

/-- `checkPregnancyInteractions` from `pregnancy-interaction-checker.js`. -/
def checkPregnancyInteractions (db : List Medication) (medicationNames : List String) (w : ℤ) :
    Except String InteractionResult :=
  if medicationNames = [] then .error "Medication names must be a non-empty array"
  else
  match validateWeek w with
  | .error e => .error e
  | .ok _ =>
  match getTrimester w with
  | .error e => .error e
  | .ok trimester =>
    let afterSolo := medicationNames.foldl (soloStep db trimester.number) ([], "none")
    let afterPairs := (pairsOf medicationNames).foldl (pairStep db trimester.number) afterSolo
    let interactions := afterPairs.1
    let highestSeverity := afterPairs.2
    .ok { weekOfPregnancy := w
          trimester := trimester.number
          medications := medicationNames
          interactionsFound := interactions.length
          interactions := interactions
          highestSeverity := highestSeverity
          safe := highestSeverity == "none"
          requiresProviderConsent := highestSeverity == "high" || highestSeverity == "critical"
          requiresObstetrician := highestSeverity == "critical"
          recommendation := generateInteractionRecommendation highestSeverity }

/-- The `RISK_THRESHOLDS` constant of the risk calculator module. -/
structure RiskThresholds where
  LOW : ℤ
  MODERATE : ℤ
  HIGH : ℤ
  CRITICAL : ℤ

def RISK_THRESHOLDS : RiskThresholds := ⟨30, 50, 70, 85⟩

/-- `getRiskLevelFromScore` from the risk calculator module. -/
def getRiskLevelFromScore (score : ℤ) : String :=
  if score ≤ RISK_THRESHOLDS.LOW then "low"
  else if score ≤ RISK_THRESHOLDS.MODERATE then "moderate"
  else if score ≤ RISK_THRESHOLDS.HIGH then "high"
  else "critical"

/-- The severity penalty added per interaction finding inside
`calculateCompositeScore`'s `forEach`. -/
def interactionPenalty (severity : String) : ℚ :=
  if severity = "critical" then 20
  else if severity = "high" then 15
  else if severity = "moderate" then 10
  else 0

/-- `calculateCompositeScore` from the risk calculator module.  `Math.max`
over the (non-empty on this branch) score list of found medications is
modelled as a fold from `0`; all individual scores are non-negative. -/
def calculateCompositeScore (medicationRisks : List MedRisk) (interactionCheck : InteractionResult) : ℤ :=
  let validRisks := medicationRisks.filter (·.found)
  if validRisks = [] then 0
  else
    let scores : List ℚ := validRisks.map fun m => ((m.riskScore.getD 0 : ℤ) : ℚ)
    let avgMedicationRisk := scores.sum / (validRisks.length : ℚ)
    let maxRisk := scores.foldl max 0
    let baseScore := maxRisk * (6/10) + avgMedicationRisk * (4/10)
    let withPenalties := interactionCheck.interactions.foldl
      (fun b i => b + interactionPenalty i.rule.severity) baseScore
    let withPoly :=
      if 3 ≤ validRisks.length then withPenalties + ((validRisks.length : ℚ) - 2) * 3
      else withPenalties
    min (jsRound withPoly) 100

/-- The result object of `calculateMultipleMedicationRisk` (warnings,
alternatives, recommendations and `assessmentDate` omitted). -/
structure MultiResult where
  weekOfPregnancy : ℤ
  trimester : ℕ
  medicationCount : ℕ
  medicationRisks : List MedRisk
  interactionRisks : List Finding
  overallRiskLevel : String
  riskScore : ℤ
  highestIndividualRisk : WithBot ℤ
  safe : Bool
  hasCategoryX : Bool
  hasCategoryD : Bool
  requiresProviderConsent : Bool
  requiresObstetrician : Bool
deriving DecidableEq

/-- `calculateMultipleMedicationRisk` from the risk calculator module. -/
def calculateMultipleMedicationRisk (db : List Medication) (medicationNames : List String)
    (w : ℤ) : Except String MultiResult :=
  if medicationNames = [] then .error "Medication names must be a non-empty array"
  else
  match validateWeek w with
  | .error e => .error e
  | .ok _ =>
  match getTrimester w with
  | .error e => .error e
  | .ok trimester =>
  match medicationNames.mapM (fun n => calculateSingleMedicationRisk db n w) with
  | .error e => .error e
  | .ok medicationRisks =>
  match checkPregnancyInteractions db medicationNames w with
  | .error e => .error e
  | .ok interactionCheck =>
    let compositeScore := calculateCompositeScore medicationRisks interactionCheck
    let overallRiskLevel := getRiskLevelFromScore compositeScore
    let highestIndividualRisk :=
      jsMax ((medicationRisks.filter (·.found)).map fun m => m.riskScore.getD 0)
    let hasCategoryX := medicationRisks.any fun m => m.found && m.fdaCategory == some "X"
    let hasCategoryD := medicationRisks.any fun m => m.found && m.fdaCategory == some "D"
    .ok { weekOfPregnancy := w
          trimester := trimester.number
          medicationCount := medicationNames.length
          medicationRisks := medicationRisks
          interactionRisks := interactionCheck.interactions
          overallRiskLevel := overallRiskLevel
          riskScore := compositeScore
          highestIndividualRisk := highestIndividualRisk
          safe := (overallRiskLevel == "low") && !hasCategoryD && !hasCategoryX
          hasCategoryX := hasCategoryX
          hasCategoryD := hasCategoryD
          requiresProviderConsent := decide (RISK_THRESHOLDS.MODERATE < compositeScore) ||
            hasCategoryD || hasCategoryX || interactionCheck.requiresProviderConsent
          requiresObstetrician := decide (RISK_THRESHOLDS.HIGH < compositeScore) ||
            hasCategoryX || interactionCheck.requiresObstetrician }

/-! ## Characterization lemmas -/

theorem RISK_THRESHOLDS_LOW : RISK_THRESHOLDS.LOW = 30 := rfl

theorem RISK_THRESHOLDS_MODERATE : RISK_THRESHOLDS.MODERATE = 50 := rfl

theorem RISK_THRESHOLDS_HIGH : RISK_THRESHOLDS.HIGH = 70 := rfl

theorem validateWeek_ok {w : ℤ} (h1 : 1 ≤ w) (h2 : w ≤ 45) : validateWeek w = .ok () := by
  unfold validateWeek
  rw [if_neg (by omega : ¬(w < 1 ∨ w > 45))]

theorem getTrimester_ok_first {w : ℤ} (h1 : 1 ≤ w) (h2 : w ≤ 12) :
    getTrimester w = .ok ⟨1, "1st Trimester", 3/2, w⟩ := by
  unfold getTrimester
  rw [validateWeek_ok h1 (by omega)]
  simp only [TRIMESTERS]
  rw [if_pos ⟨h1, h2⟩]

theorem getTrimester_ok_second {w : ℤ} (h1 : 13 ≤ w) (h2 : w ≤ 27) :
    getTrimester w = .ok ⟨2, "2nd Trimester", 1, w⟩ := by
  unfold getTrimester
  rw [validateWeek_ok (by omega) (by omega)]
  simp only [TRIMESTERS]
  rw [if_neg (by omega : ¬((1:ℤ) ≤ w ∧ w ≤ 12)), if_pos ⟨h1, h2⟩]

theorem getTrimester_ok_third {w : ℤ} (h1 : 28 ≤ w) (h2 : w ≤ 40) :
    getTrimester w = .ok ⟨3, "3rd Trimester", 6/5, w⟩ := by
  unfold getTrimester
  rw [validateWeek_ok (by omega) (by omega)]
  simp only [TRIMESTERS]
  rw [if_neg (by omega : ¬((1:ℤ) ≤ w ∧ w ≤ 12)),
      if_neg (by omega : ¬((13:ℤ) ≤ w ∧ w ≤ 27)), if_pos ⟨h1, h2⟩]

theorem getTrimester_ok_exists {w : ℤ} (h1 : 1 ≤ w) (h2 : w ≤ 40) :
    ∃ t, getTrimester w = .ok t := by
  rcases (by omega : w ≤ 12 ∨ (13 ≤ w ∧ w ≤ 27) ∨ 28 ≤ w) with h | h | h
  · exact ⟨_, getTrimester_ok_first h1 h⟩
  · exact ⟨_, getTrimester_ok_second h.1 h.2⟩
  · exact ⟨_, getTrimester_ok_third h h2⟩

theorem getTrimester_err {w : ℤ} (h : w < 1 ∨ 40 < w) : ∃ e, getTrimester w = .error e := by
  unfold getTrimester validateWeek
  by_cases hv : w < 1 ∨ w > 45
  · rw [if_pos hv]; exact ⟨_, rfl⟩
  · rw [if_neg hv]
    simp only [TRIMESTERS]
    rw [if_neg (by omega : ¬((1:ℤ) ≤ w ∧ w ≤ 12)),
        if_neg (by omega : ¬((13:ℤ) ≤ w ∧ w ≤ 27)),
        if_neg (by omega : ¬((28:ℤ) ≤ w ∧ w ≤ 40))]
    exact ⟨_, rfl⟩

theorem isCriticalPeriod_ok_exists {w : ℤ} {t : Trimester} (ht : getTrimester w = .ok t) :
    ∃ c, isCriticalPeriod w = .ok c := by
  unfold isCriticalPeriod
  rw [ht]
  dsimp only
  by_cases h1 : t.number = 1
  · rw [if_pos h1]; exact ⟨_, rfl⟩
  · rw [if_neg h1]
    cases criticalWeeks w <;> exact ⟨_, rfl⟩

theorem getTrimester_ok_validateWeek {w : ℤ} {t : Trimester} (ht : getTrimester w = .ok t) :
    validateWeek w = .ok () := by
  unfold getTrimester at ht
  cases hv : validateWeek w with
  | error e => rw [hv] at ht; exact Except.noConfusion ht
  | ok u => cases u; rfl

theorem le_jsRound_of_le {z : ℤ} {q : ℚ} (h : (z:ℚ) ≤ q) : z ≤ jsRound q := by
  unfold jsRound
  rw [Int.le_floor]
  linarith

theorem jsRound_mono {p q : ℚ} (h : p ≤ q) : jsRound p ≤ jsRound q :=
  Int.floor_le_floor (by linarith)

theorem jsRound_intCast (z : ℤ) : jsRound (z : ℚ) = z := by
  unfold jsRound
  rw [add_comm, Int.floor_add_int]
  norm_num

theorem jsRound_le_of_le {q : ℚ} {z : ℤ} (h : q ≤ (z:ℚ)) : jsRound q ≤ z := by
  have := jsRound_mono h
  rwa [jsRound_intCast] at this

theorem jsRound_nonneg {q : ℚ} (h : 0 ≤ q) : 0 ≤ jsRound q :=
  le_jsRound_of_le (by push_cast; linarith)

theorem FDA_CATEGORIES_isSome_iff (c : String) :
    (FDA_CATEGORIES c).isSome = true ↔ c ∈ ["A", "B", "C", "D", "X"] := by
  unfold FDA_CATEGORIES
  split <;> simp_all

/-- The trimester-override risk clamps never drop a score that the `safe == false`
floor has already pushed to 70 or above, unless the declared tier is `low`. -/
theorem override_risk_floor (sc : ℚ) (r : Option String) (hr : r ≠ some "low")
    (h70 : (70:ℚ) ≤ sc) :
    (70:ℚ) ≤ (if r = some "critical" then max sc 85
      else if r = some "high" then max sc 65
      else if r = some "moderate" then max sc 45
      else if r = some "low" then min sc 30
      else sc) := by
  by_cases h1 : r = some "critical"
  · rw [if_pos h1]; exact le_trans h70 (le_max_left sc 85)
  rw [if_neg h1]
  by_cases h2 : r = some "high"
  · rw [if_pos h2]; exact le_trans h70 (le_max_left sc 65)
  rw [if_neg h2]
  by_cases h3 : r = some "moderate"
  · rw [if_pos h3]; exact le_trans h70 (le_max_left sc 45)
  rw [if_neg h3, if_neg hr]
  exact h70

/-! ## Claim theorems -/

/-- C2: `getRiskLevelFromScore`, through the named `RISK_THRESHOLDS` constants,
maps a composite score `s` to tier `low` when `s ≤ 30`, `moderate` when
`31 ≤ s ≤ 50`, `high` when `51 ≤ s ≤ 70` and `critical` when `s > 70`; in
particular 30 is low, 31 and 50 moderate, 51 and 70 high, 71 critical. -/
theorem c2_tier_thresholds (s : ℤ) :
    RISK_THRESHOLDS.LOW = 30 ∧ RISK_THRESHOLDS.MODERATE = 50 ∧ RISK_THRESHOLDS.HIGH = 70 ∧
    (s ≤ 30 → getRiskLevelFromScore s = "low") ∧
    (31 ≤ s → s ≤ 50 → getRiskLevelFromScore s = "moderate") ∧
    (51 ≤ s → s ≤ 70 → getRiskLevelFromScore s = "high") ∧
    (71 ≤ s → getRiskLevelFromScore s = "critical") := by
  refine ⟨rfl, rfl, rfl, fun h => ?_, fun h1 h2 => ?_, fun h1 h2 => ?_, fun h => ?_⟩ <;>
    · unfold getRiskLevelFromScore
      rw [RISK_THRESHOLDS_LOW, RISK_THRESHOLDS_MODERATE, RISK_THRESHOLDS_HIGH]
      split_ifs <;> first | rfl | omega

/-- C2 witness: the six boundary scores evaluate to the claimed tiers. -/
theorem c2_tier_thresholds_witness :
    getRiskLevelFromScore 30 = "low" ∧ getRiskLevelFromScore 31 = "moderate" ∧
    getRiskLevelFromScore 50 = "moderate" ∧ getRiskLevelFromScore 51 = "high" ∧
    getRiskLevelFromScore 70 = "high" ∧ getRiskLevelFromScore 71 = "critical" :=
  ⟨(c2_tier_thresholds 30).2.2.2.1 (by decide),
   (c2_tier_thresholds 31).2.2.2.2.1 (by decide) (by decide),
   (c2_tier_thresholds 50).2.2.2.2.1 (by decide) (by decide),
   (c2_tier_thresholds 51).2.2.2.2.2.1 (by decide) (by decide),
   (c2_tier_thresholds 70).2.2.2.2.2.1 (by decide) (by decide),
   (c2_tier_thresholds 71).2.2.2.2.2.2 (by decide)⟩

/-- C3 counterexample: `getTrimester` maps week 13 to trimester 2, not to
trimester 1 as the claim states (the code's first-trimester interval is the
closed range 1-12, and the repository's own tests expect 13 ↦ 2). -/
theorem c3_counterexample :
    (getTrimester 13).map Trimester.number = .ok 2 ∧
    (getTrimester 13).map Trimester.number ≠ .ok 1 := by
  constructor
  · rfl
  · decide

/-- C3 (amended): the trimester map sends week 13 to trimester 2, week 14 to
trimester 2, week 27 to trimester 2 and week 28 to trimester 3, partitioning
weeks 1-40 into the closed intervals 1-12, 13-27, 28-40 with no overlap and no
gap; `getTrimester 0` and `getTrimester 41` both fail with an
out-of-range-week error. -/
theorem c3_trimester_partition :
    (getTrimester 13).map Trimester.number = .ok 2 ∧
    (getTrimester 14).map Trimester.number = .ok 2 ∧
    (getTrimester 27).map Trimester.number = .ok 2 ∧
    (getTrimester 28).map Trimester.number = .ok 3 ∧
    (∀ w : ℤ, 1 ≤ w → w ≤ 40 → ∃ t, getTrimester w = .ok t ∧ t.week = w ∧
      t.number = (if w ≤ 12 then 1 else if w ≤ 27 then 2 else 3)) ∧
    getTrimester 0 = .error "Week must be between 1 and 45, got 0" ∧
    getTrimester 41 = .error "Invalid pregnancy week: 41. Must be between 1-40." := by
  refine ⟨rfl, rfl, rfl, rfl, ?_, ?_, ?_⟩
  · intro w h1 h2
    rcases (by omega : w ≤ 12 ∨ (13 ≤ w ∧ w ≤ 27) ∨ 28 ≤ w) with h | h | h
    · exact ⟨_, getTrimester_ok_first h1 h, rfl, by rw [if_pos h]⟩
    · exact ⟨_, getTrimester_ok_second h.1 h.2, rfl,
        by rw [if_neg (by omega : ¬ w ≤ 12), if_pos h.2]⟩
    · exact ⟨_, getTrimester_ok_third h h2, rfl,
        by rw [if_neg (by omega : ¬ w ≤ 12), if_neg (by omega : ¬ w ≤ 27)]⟩
  · rfl
  · rfl

/-- C3 witness: the partition clause applied at week 20 gives trimester 2. -/
theorem c3_trimester_partition_witness :
    ∃ t, getTrimester 20 = .ok t ∧ t.week = 20 ∧
      t.number = (if (20:ℤ) ≤ 12 then 1 else if (20:ℤ) ≤ 27 then 2 else 3) :=
  c3_trimester_partition.2.2.2.2.1 20 (by decide) (by decide)

/-- C4: the code evaluated at the failing inputs.  `isCriticalPeriod` returns
the blanket first-trimester result (severity `high`, generic organ-formation
reason) for weeks 3 and 6, because the first-trimester early return precedes
the week-specific table; the claim (and the repository's own unit tests, which
expect severity `critical` at week 6 and a neural-tube reason at week 3)
requires the week-specific severities to win. -/
theorem c4_code_eval :
    isCriticalPeriod 3 = .ok ⟨true, "First trimester - organ formation period", "high"⟩ ∧
    isCriticalPeriod 6 = .ok ⟨true, "First trimester - organ formation period", "high"⟩ ∧
    criticalWeeks 3 = some ("Neural tube formation", "critical") ∧
    criticalWeeks 6 = some ("Heart and limb development", "critical") := by
  exact ⟨rfl, rfl, rfl, rfl⟩

/-- A record whose second-trimester override declares both `safe: false` and
`risk: 'low'`. -/
def medUnsafeLowOverride : Medication :=
  ⟨"Bar", "Bar", [], some ⟨some "A", none, some ⟨some false, some "low"⟩, none⟩⟩

/-- C5 counterexample: for a record whose trimester-2 override declares
`safe == false` together with risk tier `low`, `calculateRiskScore` at week 20
returns 30, below the high floor 70 — the `low`-tier ceiling is applied after
the `safe == false` floor and undoes it. -/
theorem c5_counterexample :
    calculateRiskScore medUnsafeLowOverride 20 = .ok 30 ∧ (30:ℤ) < 70 := by
  constructor
  · simp [calculateRiskScore, validateMedication, medUnsafeLowOverride, validateWeek,
      getTrimester, TRIMESTERS, isCriticalPeriod, criticalWeeks, effFdaCategory, jsOrStr,
      FDA_CATEGORIES, trimesterDataFor, jsRound]
    norm_num
  · decide

/-- C5 (amended): for every record whose override for the computed trimester
declares `safe == false` and does not declare risk tier `low`,
`calculateRiskScore` returns a score of at least the fixed high floor 70 (a
declared `low` tier instead caps the score at 30 afterwards). -/
theorem c5_unsafe_override_floor (m : Medication) (w : ℤ) (t : Trimester)
    (td : TrimesterData) (s : ℤ)
    (ht : getTrimester w = .ok t)
    (htd : trimesterDataFor m t.number = some td)
    (hsafe : td.safe = some false)
    (hrisk : td.risk ≠ some "low")
    (hcalc : calculateRiskScore m w = .ok s) :
    70 ≤ s := by
  have hvw : validateWeek w = .ok () := getTrimester_ok_validateWeek ht
  obtain ⟨cr, hcr⟩ := isCriticalPeriod_ok_exists ht
  unfold calculateRiskScore at hcalc
  cases hvm : validateMedication m with
  | error e => rw [hvm] at hcalc; exact Except.noConfusion hcalc
  | ok u =>
    cases u
    rw [hvm, hvw, ht, hcr] at hcalc
    dsimp only at hcalc
    cases hF : FDA_CATEGORIES (effFdaCategory m) with
    | none => rw [hF] at hcalc; exact Except.noConfusion hcalc
    | some ci =>
      rw [hF] at hcalc
      dsimp only at hcalc
      rw [htd] at hcalc
      dsimp only at hcalc
      rw [hsafe, if_pos rfl] at hcalc
      injection hcalc with hs
      subst hs
      refine le_min (le_jsRound_of_le ?_) (by norm_num)
      push_cast
      exact override_risk_floor _ td.risk hrisk (le_max_right _ 70)

/-- A record whose second-trimester override declares `safe: false` with risk
tier `critical`. -/
def medUnsafeCriticalOverride : Medication :=
  ⟨"Baz", "Baz", [], some ⟨some "A", none, some ⟨some false, some "critical"⟩, none⟩⟩

/-- C5 witness: the amended floor theorem applied to a concrete record
(`safe: false`, risk `critical`, week 20, score 85). -/
theorem c5_unsafe_override_floor_witness : (70:ℤ) ≤ 85 :=
  c5_unsafe_override_floor medUnsafeCriticalOverride 20 ⟨2, "2nd Trimester", 1, 20⟩
    ⟨some false, some "critical"⟩ 85 rfl rfl rfl (by decide)
    (by
      simp [calculateRiskScore, validateMedication, medUnsafeCriticalOverride,
        validateWeek, getTrimester, TRIMESTERS, isCriticalPeriod, criticalWeeks, effFdaCategory,
        jsOrStr, FDA_CATEGORIES, trimesterDataFor, jsRound]
      norm_num)

/-- C6 counterexample: `checkPregnancyInteractions` called with an empty
medication list and a valid week throws (the repository's own tests expect this
throw), instead of returning an empty finding list as the claim states. -/
theorem c6_counterexample :
    checkPregnancyInteractions [] ([] : List String) 20 =
      .error "Medication names must be a non-empty array" := rfl

/-- C6 (amended): `checkPregnancyInteractions` fails on an empty medication
list with the non-empty-array validation error (for every week); on a
non-empty list it succeeds whenever the week is valid (1-40), returning a
finding list; and it fails on every out-of-range week. -/
theorem c6_empty_and_week_behavior :
    (∀ (db : List Medication) (w : ℤ),
      checkPregnancyInteractions db [] w = .error "Medication names must be a non-empty array") ∧
    (∀ (db : List Medication) (names : List String) (w : ℤ), names ≠ [] → 1 ≤ w → w ≤ 40 →
      ∃ r, checkPregnancyInteractions db names w = .ok r) ∧
    (∀ (db : List Medication) (names : List String) (w : ℤ), w < 1 ∨ 40 < w →
      ∃ e, checkPregnancyInteractions db names w = .error e) := by
  refine ⟨fun db w => ?_, fun db names w hne h1 h2 => ?_, fun db names w h => ?_⟩
  · unfold checkPregnancyInteractions
    rw [if_pos rfl]
  · obtain ⟨t, ht⟩ := getTrimester_ok_exists h1 h2
    unfold checkPregnancyInteractions
    rw [if_neg hne, getTrimester_ok_validateWeek ht, ht]
    exact ⟨_, rfl⟩
  · unfold checkPregnancyInteractions
    by_cases hne : names = []
    · rw [if_pos hne]; exact ⟨_, rfl⟩
    · rw [if_neg hne]
      by_cases hv : w < 1 ∨ w > 45
      · rw [show validateWeek w = .error s!"Week must be between 1 and 45, got {w}" from
          by unfold validateWeek; rw [if_pos hv]]
        exact ⟨_, rfl⟩
      · obtain ⟨e, he⟩ := getTrimester_err h
        rw [validateWeek_ok (by omega) (by omega), he]
        exact ⟨_, rfl⟩

/-- C6 witness: the three amended clauses at concrete inputs (empty list at
week 20; the unknown name `Tylenol` over the empty store at weeks 20 and 41). -/
theorem c6_empty_and_week_behavior_witness :
    checkPregnancyInteractions [] ([] : List String) 20 =
      .error "Medication names must be a non-empty array" ∧
    (∃ r, checkPregnancyInteractions [] ["Tylenol"] 20 = .ok r) ∧
    (∃ e, checkPregnancyInteractions [] ["Tylenol"] 41 = .error e) :=
  ⟨c6_empty_and_week_behavior.1 [] 20,
   c6_empty_and_week_behavior.2.1 [] ["Tylenol"] 20 (by decide) (by decide) (by decide),
   c6_empty_and_week_behavior.2.2 [] ["Tylenol"] 41 (by decide)⟩

/-- A record carrying the literal category `N`. -/
def medCategoryN : Medication := ⟨"Foo", "Foo", [], some ⟨some "N", none, none, none⟩⟩

/-- C7 counterexample: a record with FDA category `N` makes
`calculateRiskScore` throw `Invalid FDA category: N` — the engine's
`FDA_CATEGORIES` table has no `N` entry, so `N` is not scored with the C-tier
default as the claim states. -/
theorem c7_counterexample :
    calculateRiskScore medCategoryN 20 = .error "Invalid FDA category: N" := rfl

/-- C7 (amended): for a structurally valid record and a valid week,
`calculateRiskScore` succeeds exactly when the effective category (the `fda`
field, with absent or empty defaulting to `C`) is one of A, B, C, D, X — so it
fails on the literal `N`; an absent category does not fail, since it defaults
to `C`, whose table entry carries the moderate tier and baseline 50. -/
theorem c7_category_validity (m : Medication) (w : ℤ)
    (hname : m.name ≠ "") (hpc : m.pregnancyCategory ≠ none)
    (h1 : 1 ≤ w) (h2 : w ≤ 40) :
    ((calculateRiskScore m w).isOk = true ↔ effFdaCategory m ∈ ["A", "B", "C", "D", "X"]) ∧
    (m.pregnancyCategory.bind (fun pc => pc.fda) = none → effFdaCategory m = "C") ∧
    FDA_CATEGORIES "C" = some ⟨"moderate", 50⟩ := by
  have hvm : validateMedication m = .ok () := by
    unfold validateMedication
    rw [if_neg hname, if_neg hpc]
  obtain ⟨t, ht⟩ := getTrimester_ok_exists h1 h2
  obtain ⟨cr, hcr⟩ := isCriticalPeriod_ok_exists ht
  refine ⟨?_, fun h => ?_, rfl⟩
  · unfold calculateRiskScore
    rw [hvm, getTrimester_ok_validateWeek ht, ht, hcr]
    dsimp only
    rw [← FDA_CATEGORIES_isSome_iff]
    cases hF : FDA_CATEGORIES (effFdaCategory m) with
    | none => simp [Except.isOk, Except.toBool]
    | some ci => simp [Except.isOk, Except.toBool]
  · unfold effFdaCategory jsOrStr
    rw [h]

/-- The not-found entry built by `calculateSingleMedicationRisk`. -/
def notFoundRisk (medicationName : String) : MedRisk :=
  ⟨false, medicationName, none, "unknown", none, none⟩

theorem checkMedicationSafety_notFound {db : List Medication} {name : String} {w : ℤ}
    (hname : name ≠ "") (hvw : validateWeek w = .ok ())
    (hfind : findMedication db name = none) :
    checkMedicationSafety db name w = .ok (.notFound name) := by
  unfold checkMedicationSafety
  rw [if_neg hname, hvw, hfind]

theorem calculateSingleMedicationRisk_notFound {db : List Medication} {name : String} {w : ℤ}
    (hname : name ≠ "") (hvw : validateWeek w = .ok ())
    (hfind : findMedication db name = none) :
    calculateSingleMedicationRisk db name w = .ok (notFoundRisk name) := by
  unfold calculateSingleMedicationRisk
  rw [hvw, checkMedicationSafety_notFound hname hvw hfind]
  rfl

theorem mapM_ok_of_forall {α β : Type} {f : α → Except String β} {g : α → β} (l : List α)
    (h : ∀ a ∈ l, f a = .ok (g a)) : l.mapM f = .ok (l.map g) := by
  induction l with
  | nil => rfl
  | cons a l ih =>
    rw [List.mapM_cons, h a (List.mem_cons_self a l),
      ih (fun x hx => h x (List.mem_cons_of_mem a hx))]
    rfl

theorem foldl_eq_self {α β : Type} {step : β → α → β} (l : List α) (acc : β)
    (h : ∀ x ∈ l, ∀ b, step b x = b) : l.foldl step acc = acc := by
  induction l generalizing acc with
  | nil => rfl
  | cons a l ih =>
    rw [List.foldl_cons, h a (List.mem_cons_self a l) acc]
    exact ih acc (fun x hx b => h x (List.mem_cons_of_mem a hx) b)

theorem mem_pairsOf {p : String × String} {l : List String} (h : p ∈ pairsOf l) :
    p.1 ∈ l ∧ p.2 ∈ l := by
  induction l with
  | nil => cases h
  | cons x rest ih =>
    unfold pairsOf at h
    rw [List.mem_append] at h
    rcases h with h | h
    · obtain ⟨y, hy, hp⟩ := List.mem_map.mp h
      subst hp
      exact ⟨List.mem_cons_self x rest, List.mem_cons_of_mem x hy⟩
    · obtain ⟨h1, h2⟩ := ih h
      exact ⟨List.mem_cons_of_mem x h1, List.mem_cons_of_mem x h2⟩

theorem checkPregnancyInteractions_unfound {db : List Medication} {names : List String}
    {w : ℤ} {t : Trimester} (hne : names ≠ []) (ht : getTrimester w = .ok t)
    (hall : ∀ n ∈ names, findMedication db n = none) :
    checkPregnancyInteractions db names w =
      .ok ⟨w, t.number, names, 0, [], "none", true, false, false,
        generateInteractionRecommendation "none"⟩ := by
  unfold checkPregnancyInteractions
  rw [if_neg hne, getTrimester_ok_validateWeek ht, ht]
  dsimp only
  rw [foldl_eq_self names ([], "none") (fun n hn b => by
    unfold soloStep soloInfo
    rw [hall n hn])]
  rw [foldl_eq_self (pairsOf names) ([], "none") (fun p hp b => by
    unfold pairStep pairFinding
    rw [hall p.1 (mem_pairsOf hp).1])]
  rfl

theorem cast_foldl_max (l : List ℤ) (a : ℤ) :
    ((l.foldl max a : ℤ) : ℚ) = (l.map (fun z : ℤ => (z : ℚ))).foldl max (a : ℚ) := by
  induction l generalizing a with
  | nil => rfl
  | cons x xs ih => rw [List.foldl_cons, List.map_cons, List.foldl_cons, ← Int.cast_max, ih]

theorem cast_list_sum (l : List ℤ) :
    ((l.sum : ℤ) : ℚ) = (l.map (fun z : ℤ => (z : ℚ))).sum := by
  induction l with
  | nil => simp
  | cons x xs ih => rw [List.sum_cons, List.map_cons, List.sum_cons, Int.cast_add, ih]

theorem foldl_add_eq {α : Type} (f : α → ℚ) (l : List α) (b : ℚ) :
    l.foldl (fun acc x => acc + f x) b = b + (l.map f).sum := by
  induction l generalizing b with
  | nil => simp
  | cons x xs ih => rw [List.foldl_cons, ih, List.map_cons, List.sum_cons]; ring

/-- The severity penalty schedule of the spec's composite formula: a flat
penalty per triggered finding, largest for critical, smaller for high, smaller
still for moderate, at the implementation's fixed values. -/
def specSeverityPenalty (severity : String) : ℚ :=
  if severity = "critical" then 20
  else if severity = "high" then 15
  else if severity = "moderate" then 10
  else 0

/-- The composite-score formula as the spec words it (section 4.5 steps 4-6 and
8): 60% of the maximum individual score plus 40% of the mean individual score
across found medications, plus the additive severity penalties of all triggered
findings, plus a polypharmacy increment of 3 per found medication beyond the
second once at least 3 are found, then rounded and clamped to at most 100. -/
def specCompositeScore (foundScores : List ℤ) (severities : List String) : ℤ :=
  match foundScores with
  | [] => 0
  | s :: rest =>
    let maxScore : ℚ := ((rest.foldl max s : ℤ) : ℚ)
    let meanScore : ℚ := (((s :: rest).sum : ℤ) : ℚ) / ((s :: rest).length : ℚ)
    let penalties : ℚ := (severities.map specSeverityPenalty).sum
    let polypharmacy : ℚ :=
      if 3 ≤ (s :: rest).length then (((s :: rest).length : ℚ) - 2) * 3 else 0
    min (jsRound (maxScore * (6/10) + meanScore * (4/10) + penalties + polypharmacy)) 100

theorem specSeverityPenalty_eq : specSeverityPenalty = interactionPenalty := rfl

theorem calculateCompositeScore_eq_spec (risks : List MedRisk) (ic : InteractionResult)
    (hne : risks.filter (·.found) ≠ [])
    (hnn : ∀ mr ∈ risks.filter (·.found), (0:ℤ) ≤ mr.riskScore.getD 0) :
    calculateCompositeScore risks ic =
      specCompositeScore ((risks.filter (·.found)).map fun m => m.riskScore.getD 0)
        (ic.interactions.map fun f => f.rule.severity) := by
  unfold calculateCompositeScore specCompositeScore
  rw [if_neg hne]
  cases hv : risks.filter (·.found) with
  | nil => exact absurd hv hne
  | cons m rest =>
    have hq0 : (0:ℚ) ≤ ((m.riskScore.getD 0 : ℤ) : ℚ) := by
      exact_mod_cast hnn m (hv ▸ List.mem_cons_self m rest)
    simp only [List.map_cons]
    rw [foldl_add_eq]
    rw [List.foldl_cons, max_eq_right hq0, cast_foldl_max, cast_list_sum, specSeverityPenalty_eq]
    simp only [List.map_cons, List.map_map, Function.comp_def, List.length_cons,
      List.length_map, List.sum_cons]
    refine congrArg (fun q : ℚ => min (jsRound q) 100) ?_
    by_cases h3 : 3 ≤ rest.length + 1
    · rw [if_pos h3, if_pos h3]
    · rw [if_neg h3, if_neg h3]
      ring

theorem calculateMultipleMedicationRisk_ok_elim {db : List Medication} {names : List String}
    {w : ℤ} {r : MultiResult}
    (h : calculateMultipleMedicationRisk db names w = .ok r) :
    ∃ ic, checkPregnancyInteractions db names w = .ok ic ∧
      names.mapM (fun n => calculateSingleMedicationRisk db n w) = .ok r.medicationRisks ∧
      r.interactionRisks = ic.interactions ∧
      r.riskScore = calculateCompositeScore r.medicationRisks ic := by
  unfold calculateMultipleMedicationRisk at h
  by_cases hne : names = []
  · rw [if_pos hne] at h; exact Except.noConfusion h
  · rw [if_neg hne] at h
    cases hv : validateWeek w with
    | error e => rw [hv] at h; exact Except.noConfusion h
    | ok u =>
      cases u
      rw [hv] at h
      dsimp only at h
      cases ht : getTrimester w with
      | error e => rw [ht] at h; exact Except.noConfusion h
      | ok t =>
        rw [ht] at h
        dsimp only at h
        cases hm : names.mapM (fun n => calculateSingleMedicationRisk db n w) with
        | error e => rw [hm] at h; exact Except.noConfusion h
        | ok mrs =>
          rw [hm] at h
          dsimp only at h
          cases hic : checkPregnancyInteractions db names w with
          | error e => rw [hic] at h; exact Except.noConfusion h
          | ok ic =>
            rw [hic] at h
            dsimp only at h
            injection h with e
            subst e
            exact ⟨ic, rfl, rfl, rfl, rfl⟩

/-- C10 counterexample: the claim quantifies over every non-empty name list in
which no name is found, but the list containing only the empty string satisfies
that hypothesis over the empty store and still makes
`calculateMultipleMedicationRisk` throw (the name-is-required guard fires
before the not-found path). -/
theorem c10_counterexample :
    findMedication [] "" = none ∧
    calculateMultipleMedicationRisk [] [""] 20 =
      .error "Medication name is required and must be a string" := by
  constructor
  · rfl
  · rfl

/-- C10 (amended): for every non-empty list of non-empty medication names in
which no name is found in the store, and every valid week,
`calculateMultipleMedicationRisk` succeeds with composite `riskScore` 0, tier
`low`, `safe == true`, and `highestIndividualRisk` equal to `-Infinity`
(modelled `⊥`), the JS `Math.max()` of an empty list. -/
theorem c10_all_unfound (db : List Medication) (names : List String) (w : ℤ)
    (hne : names ≠ []) (hnonempty : ∀ n ∈ names, n ≠ "")
    (h1 : 1 ≤ w) (h2 : w ≤ 40)
    (hall : ∀ n ∈ names, findMedication db n = none) :
    ∃ r, calculateMultipleMedicationRisk db names w = .ok r ∧
      r.riskScore = 0 ∧ r.overallRiskLevel = "low" ∧ r.safe = true ∧
      r.highestIndividualRisk = ⊥ := by
  obtain ⟨t, ht⟩ := getTrimester_ok_exists h1 h2
  have hvw := getTrimester_ok_validateWeek ht
  have hmapM : names.mapM (fun n => calculateSingleMedicationRisk db n w) =
      .ok (names.map notFoundRisk) :=
    mapM_ok_of_forall names (fun n hn =>
      calculateSingleMedicationRisk_notFound (hnonempty n hn) hvw (hall n hn))
  have hfilter : (names.map notFoundRisk).filter (·.found) = [] := by
    rw [List.filter_eq_nil_iff]
    intro a ha
    obtain ⟨n, _, hn⟩ := List.mem_map.mp ha
    subst hn
    simp [notFoundRisk]
  unfold calculateMultipleMedicationRisk
  rw [if_neg hne, hvw, ht, hmapM, checkPregnancyInteractions_unfound hne ht hall]
  dsimp only
  refine ⟨_, rfl, ?_, ?_, ?_, ?_⟩
  · unfold calculateCompositeScore
    rw [hfilter, if_pos rfl]
  · unfold calculateCompositeScore
    rw [hfilter, if_pos rfl]
    rfl
  · have hX : (names.map notFoundRisk).any (fun m => m.found && m.fdaCategory == some "X")
        = false := by
      rw [List.any_eq_false]
      intro a ha
      obtain ⟨n, _, hn⟩ := List.mem_map.mp ha
      subst hn
      simp [notFoundRisk]
    have hD : (names.map notFoundRisk).any (fun m => m.found && m.fdaCategory == some "D")
        = false := by
      rw [List.any_eq_false]
      intro a ha
      obtain ⟨n, _, hn⟩ := List.mem_map.mp ha
      subst hn
      simp [notFoundRisk]
    dsimp only
    rw [hX, hD]
    unfold calculateCompositeScore
    rw [hfilter, if_pos rfl]
    rfl
  · dsimp only
    rw [hfilter]
    rfl

/-- C10 witness: one unknown name over the empty store at week 20. -/
theorem c10_all_unfound_witness :
    ∃ r, calculateMultipleMedicationRisk [] ["Unobtainium"] 20 = .ok r ∧
      r.riskScore = 0 ∧ r.overallRiskLevel = "low" ∧ r.safe = true ∧
      r.highestIndividualRisk = ⊥ :=
  c10_all_unfound [] ["Unobtainium"] 20 (by decide)
    (by intro n hn; simp at hn; subst hn; decide) (by decide) (by decide)
    (by intro n hn; simp at hn; subst hn; rfl)

theorem except_ok_bind {α β : Type} (a : α) (k : α → Except String β) :
    ((Except.ok a : Except String α) >>= k) = k a := rfl

theorem mapM_ok_mem {α β : Type} {f : α → Except String β} {l : List α} {bs : List β}
    (h : l.mapM f = .ok bs) : ∀ b ∈ bs, ∃ a ∈ l, f a = .ok b := by
  induction l generalizing bs with
  | nil =>
    rw [List.mapM_nil] at h
    injection h with e
    subst e
    intro b hb
    exact absurd hb (List.not_mem_nil b)
  | cons a l ih =>
    rw [List.mapM_cons] at h
    cases hfa : f a with
    | error e => rw [hfa] at h; exact Except.noConfusion h
    | ok b0 =>
      rw [hfa, except_ok_bind] at h
      cases hrest : l.mapM f with
      | error e => rw [hrest] at h; exact Except.noConfusion h
      | ok bs0 =>
        rw [hrest, except_ok_bind] at h
        injection h with e
        subst e
        intro b hb
        rcases List.mem_cons.mp hb with hb | hb
        · exact ⟨a, List.mem_cons_self a l, hb ▸ hfa⟩
        · obtain ⟨a', ha', hfa'⟩ := ih hrest b hb
          exact ⟨a', List.mem_cons_of_mem a ha', hfa'⟩

theorem getTrimester_mult_nonneg {w : ℤ} {t : Trimester} (h : getTrimester w = .ok t) :
    0 ≤ t.riskMultiplier := by
  unfold getTrimester at h
  cases hv : validateWeek w with
  | error e => rw [hv] at h; exact Except.noConfusion h
  | ok u =>
    cases u
    rw [hv] at h
    dsimp only at h
    split_ifs at h <;>
      (injection h with e; subst e; norm_num [TRIMESTERS])

theorem FDA_CATEGORIES_baseScore_nonneg {c : String} {ci : CategoryInfo}
    (h : FDA_CATEGORIES c = some ci) : 0 ≤ ci.baseScore := by
  unfold FDA_CATEGORIES at h
  split at h <;>
    first
    | (injection h with e; subst e; norm_num)
    | exact Option.noConfusion h

theorem score2_nonneg (base mult : ℚ) (c : CriticalInfo) (hb : 0 ≤ base) (hm : 0 ≤ mult) :
    0 ≤ (if c.isCritical = true then
        if c.severity = "critical" then base * mult * (13/10)
        else if c.severity = "high" then base * mult * (12/10)
        else if c.severity = "moderate" then base * mult * (11/10)
        else base * mult
      else base * mult) := by
  have h1 : 0 ≤ base * mult := mul_nonneg hb hm
  split_ifs <;> first | exact h1 | exact mul_nonneg h1 (by norm_num)

theorem score3_nonneg (sc : ℚ) (td : Option TrimesterData) (h : 0 ≤ sc) :
    0 ≤ (match td with
      | none => sc
      | some td =>
        let s := if td.safe = some false then max sc 70 else sc
        if td.risk = some "critical" then max s 85
        else if td.risk = some "high" then max s 65
        else if td.risk = some "moderate" then max s 45
        else if td.risk = some "low" then min s 30
        else s) := by
  cases td with
  | none => exact h
  | some td =>
    dsimp only
    have hs : 0 ≤ (if td.safe = some false then max sc 70 else sc) := by
      split_ifs
      · exact le_trans (by norm_num) (le_max_right sc 70)
      · exact h
    by_cases h1 : td.risk = some "critical"
    · rw [if_pos h1]; exact le_trans hs (le_max_left _ 85)
    rw [if_neg h1]
    by_cases h2 : td.risk = some "high"
    · rw [if_pos h2]; exact le_trans hs (le_max_left _ 65)
    rw [if_neg h2]
    by_cases h3 : td.risk = some "moderate"
    · rw [if_pos h3]; exact le_trans hs (le_max_left _ 45)
    rw [if_neg h3]
    by_cases h4 : td.risk = some "low"
    · rw [if_pos h4]; exact le_min hs (by norm_num)
    rw [if_neg h4]
    exact hs

set_option maxHeartbeats 1000000 in
theorem calculateRiskScore_nonneg {m : Medication} {w : ℤ} {s : ℤ}
    (h : calculateRiskScore m w = .ok s) : 0 ≤ s := by
  unfold calculateRiskScore at h
  cases hvm : validateMedication m with
  | error e => rw [hvm] at h; exact Except.noConfusion h
  | ok u =>
    cases u
    rw [hvm] at h
    cases hv : validateWeek w with
    | error e => rw [hv] at h; exact Except.noConfusion h
    | ok u =>
      cases u
      rw [hv] at h
      cases htr : getTrimester w with
      | error e => rw [htr] at h; exact Except.noConfusion h
      | ok t =>
        rw [htr] at h
        cases hcr : isCriticalPeriod w with
        | error e => rw [hcr] at h; exact Except.noConfusion h
        | ok cr =>
          rw [hcr] at h
          dsimp only at h
          cases hF : FDA_CATEGORIES (effFdaCategory m) with
          | none => rw [hF] at h; exact Except.noConfusion h
          | some ci =>
            rw [hF] at h
            dsimp only at h
            injection h with e
            subst e
            refine le_min (jsRound_nonneg ?_) (by norm_num)
            exact score3_nonneg _ _ (score2_nonneg ci.baseScore t.riskMultiplier cr
              (FDA_CATEGORIES_baseScore_nonneg hF) (getTrimester_mult_nonneg htr))

theorem checkMedicationSafety_found_elim {db : List Medication} {name : String} {w : ℤ}
    {fs : FoundSafety} (h : checkMedicationSafety db name w = .ok (.found fs)) :
    ∃ med t, findMedication db name = some med ∧ getTrimester w = .ok t ∧
      calculateRiskScore med w = .ok fs.riskScore ∧
      fs.fdaCategory = effFdaCategory med ∧
      fs.safe = (decide (fs.riskScore ≤ 40) &&
        ((trimesterDataFor med t.number).bind (·.safe)) != some false) ∧
      fs.riskLevel = getRiskLevel fs.riskScore := by
  unfold checkMedicationSafety at h
  by_cases hname : name = ""
  · rw [if_pos hname] at h; exact Except.noConfusion h
  · rw [if_neg hname] at h
    cases hv : validateWeek w with
    | error e => rw [hv] at h; exact Except.noConfusion h
    | ok u =>
      cases u
      rw [hv] at h
      dsimp only at h
      cases hf : findMedication db name with
      | none =>
        rw [hf] at h
        dsimp only at h
        injection h with e
        exact SafetyResult.noConfusion e
      | some med =>
        rw [hf] at h
        dsimp only at h
        cases htr : getTrimester w with
        | error e => rw [htr] at h; exact Except.noConfusion h
        | ok t =>
          rw [htr] at h
          dsimp only at h
          cases hcr : isCriticalPeriod w with
          | error e => rw [hcr] at h; exact Except.noConfusion h
          | ok cr =>
            rw [hcr] at h
            dsimp only at h
            cases hrs : calculateRiskScore med w with
            | error e => rw [hrs] at h; exact Except.noConfusion h
            | ok sc =>
              rw [hrs] at h
              dsimp only at h
              injection h with e
              injection e with e'
              subst e'
              exact ⟨med, t, rfl, rfl, hrs, rfl, rfl, rfl⟩

theorem calculateSingleMedicationRisk_found_elim {db : List Medication} {name : String}
    {w : ℤ} {mr : MedRisk} (h : calculateSingleMedicationRisk db name w = .ok mr)
    (hfound : mr.found = true) :
    ∃ fs, checkMedicationSafety db name w = .ok (.found fs) ∧
      mr = ⟨true, fs.genericName, some fs.riskScore, fs.riskLevel,
        some fs.fdaCategory, some fs.safe⟩ := by
  unfold calculateSingleMedicationRisk at h
  cases hv : validateWeek w with
  | error e => rw [hv] at h; exact Except.noConfusion h
  | ok u =>
    cases u
    rw [hv] at h
    cases hcs : checkMedicationSafety db name w with
    | error e => rw [hcs] at h; exact Except.noConfusion h
    | ok sr =>
      rw [hcs] at h
      cases sr with
      | notFound n =>
        dsimp only at h
        injection h with e
        subst e
        exact Bool.noConfusion hfound
      | found fs =>
        dsimp only at h
        injection h with e
        subst e
        exact ⟨fs, rfl, rfl⟩

/-- C1: whenever `calculateMultipleMedicationRisk` returns a result and at
least one medication was found, the composite `riskScore` equals the spec's
formula: 60% of the maximum individual score plus 40% of the mean individual
score over the found medications, plus the additive flat severity penalties
(critical 20 > high 15 > moderate 10) for every triggered interaction finding,
plus 3 per found medication beyond the second when at least 3 are found,
rounded and clamped to at most 100. -/
theorem c1_composite_formula (db : List Medication) (names : List String) (w : ℤ)
    (r : MultiResult)
    (h : calculateMultipleMedicationRisk db names w = .ok r)
    (hne : r.medicationRisks.filter (·.found) ≠ []) :
    r.riskScore = specCompositeScore
      ((r.medicationRisks.filter (·.found)).map fun m => m.riskScore.getD 0)
      (r.interactionRisks.map fun f => f.rule.severity) := by
  obtain ⟨ic, hic, hm, hir, hrs⟩ := calculateMultipleMedicationRisk_ok_elim h
  rw [hrs, hir]
  refine calculateCompositeScore_eq_spec _ _ hne ?_
  intro mr hmr
  have hmem := List.mem_of_mem_filter hmr
  have hfound : mr.found = true := by simpa using List.of_mem_filter hmr
  obtain ⟨n, hn, hsingle⟩ := mapM_ok_mem hm mr hmem
  obtain ⟨fs, hcs, hmrEq⟩ := calculateSingleMedicationRisk_found_elim hsingle hfound
  obtain ⟨med, t, _, _, hrsc, _, _, _⟩ := checkMedicationSafety_found_elim hcs
  subst hmrEq
  simpa using calculateRiskScore_nonneg hrsc

/-- The findings a single solo-loop step appends. -/
def soloFindList (db : List Medication) (tn : ℕ) (x : String) : List Finding :=
  match soloInfo db tn x with
  | none => []
  | some p => [p.1]

/-- The severity update a single solo-loop step applies. -/
def soloSevStep (db : List Medication) (tn : ℕ) (s : String) (x : String) : String :=
  match soloInfo db tn x with
  | none => s
  | some p => if p.2 then "critical" else if s = "critical" then s else "high"

theorem soloStep_eq (db : List Medication) (tn : ℕ) (acc : List Finding × String) (x : String) :
    soloStep db tn acc x = (acc.1 ++ soloFindList db tn x, soloSevStep db tn acc.2 x) := by
  unfold soloStep soloFindList soloSevStep
  cases soloInfo db tn x with
  | none => simp
  | some p => cases p; rfl

/-- The findings a single pairwise-loop step appends. -/
def pairFindList (db : List Medication) (tn : ℕ) (a b : String) : List Finding :=
  (pairFinding db tn a b).toList

/-- The severity update a single pairwise-loop step applies. -/
def pairSevStep (db : List Medication) (tn : ℕ) (s : String) (a b : String) : String :=
  match pairFinding db tn a b with
  | none => s
  | some f => pairSevUpdate s f

theorem pairStep_eq (db : List Medication) (tn : ℕ) (acc : List Finding × String)
    (p : String × String) :
    pairStep db tn acc p = (acc.1 ++ pairFindList db tn p.1 p.2, pairSevStep db tn acc.2 p.1 p.2) := by
  unfold pairStep pairFindList pairSevStep
  cases pairFinding db tn p.1 p.2 with
  | none => simp
  | some f => rfl

theorem strLeChars_total (l1 l2 : List Char) :
    strLeChars l1 l2 = true ∨ strLeChars l2 l1 = true := by
  induction l1 generalizing l2 with
  | nil => exact Or.inl rfl
  | cons a as ih =>
    cases l2 with
    | nil => exact Or.inr rfl
    | cons b bs =>
      unfold strLeChars
      rcases lt_trichotomy a b with h | h | h
      · left; rw [if_pos h]
      · subst h
        rcases ih bs with h' | h'
        · left; rw [if_neg (lt_irrefl a), if_neg (lt_irrefl a)]; exact h'
        · right; rw [if_neg (lt_irrefl a), if_neg (lt_irrefl a)]; exact h'
      · right; rw [if_pos h]

theorem strLeChars_antisymm {l1 l2 : List Char} (h12 : strLeChars l1 l2 = true)
    (h21 : strLeChars l2 l1 = true) : l1 = l2 := by
  induction l1 generalizing l2 with
  | nil =>
    cases l2 with
    | nil => rfl
    | cons b bs => exact absurd h21 (by unfold strLeChars; simp)
  | cons a as ih =>
    cases l2 with
    | nil => exact absurd h12 (by unfold strLeChars; simp)
    | cons b bs =>
      unfold strLeChars at h12 h21
      rcases lt_trichotomy a b with h | h | h
      · rw [if_neg (lt_asymm h), if_pos h] at h21
        exact absurd h21 (by simp)
      · subst h
        rw [if_neg (lt_irrefl a), if_neg (lt_irrefl a)] at h12 h21
        rw [ih h12 h21]
      · rw [if_neg (lt_asymm h), if_pos h] at h12
        exact absurd h12 (by simp)

theorem strLe_antisymm {s1 s2 : String} (h12 : strLe s1 s2 = true)
    (h21 : strLe s2 s1 = true) : s1 = s2 := by
  cases s1 with
  | mk l1 =>
    cases s2 with
    | mk l2 => exact congrArg String.mk (strLeChars_antisymm h12 h21)

theorem pairKey_comm (g1 g2 : String) : pairKey g1 g2 = pairKey g2 g1 := by
  unfold pairKey
  cases hab : strLe g1 g2 <;> cases hba : strLe g2 g1
  · rcases strLeChars_total g1.data g2.data with h | h
    · exact absurd h (by rw [show strLeChars g1.data g2.data = strLe g1 g2 from rfl, hab]; simp)
    · exact absurd h (by rw [show strLeChars g2.data g1.data = strLe g2 g1 from rfl, hba]; simp)
  · rw [if_neg (by simp), if_pos rfl]
  · rw [if_pos rfl, if_neg (by simp)]
  · rw [if_pos rfl, if_pos rfl, strLe_antisymm hab hba]

theorem pairFinding_swap (db : List Medication) (tn : ℕ) (a b : String) :
    pairFinding db tn a b = pairFinding db tn b a := by
  unfold pairFinding
  cases hA : findMedication db a <;> cases hB : findMedication db b
  · rfl
  · rfl
  · rfl
  · dsimp only
    rw [pairKey_comm]

theorem soloSevStep_swap (db : List Medication) (tn : ℕ) (a b : String) :
    soloSevStep db tn (soloSevStep db tn "none" a) b =
      soloSevStep db tn (soloSevStep db tn "none" b) a := by
  unfold soloSevStep
  cases hA : soloInfo db tn a with
  | none => cases hB : soloInfo db tn b with
    | none => rfl
    | some p => rfl
  | some p =>
    cases hB : soloInfo db tn b with
    | none => rfl
    | some q =>
      cases p with
      | mk f1 x1 =>
        cases q with
        | mk f2 x2 => cases x1 <;> cases x2 <;> simp

/-- C8 counterexample: the full results of `checkPregnancyInteractions` on the
two orders of the same pair differ (the result echoes the input name list in
its `medications` field, so `findInteractions([A,B],w)` is not literally equal
to `findInteractions([B,A],w)`). -/
theorem c8_counterexample :
    checkPregnancyInteractions [] ["a", "b"] 20 ≠
      checkPregnancyInteractions [] ["b", "a"] 20 := by
  decide

/-- C8 (amended): for two medication names the two input orders give
interaction results that agree up to order — the finding lists are permutations
of one another, and `interactionsFound`, `highestSeverity`, `safe`, both
escalation flags, the recommendation and the trimester are equal — while the
echoed `medications` list (and the order of findings) follows input order; and
the pairwise lookup is symmetric: looking up (A,B) and (B,A) yields the same
rule. -/
theorem c8_symmetry (db : List Medication) (A B : String) (w : ℤ)
    (r1 r2 : InteractionResult)
    (h1 : checkPregnancyInteractions db [A, B] w = .ok r1)
    (h2 : checkPregnancyInteractions db [B, A] w = .ok r2) :
    r1.interactions.Perm r2.interactions ∧
    r1.interactionsFound = r2.interactionsFound ∧
    r1.highestSeverity = r2.highestSeverity ∧
    r1.safe = r2.safe ∧
    r1.requiresProviderConsent = r2.requiresProviderConsent ∧
    r1.requiresObstetrician = r2.requiresObstetrician ∧
    r1.recommendation = r2.recommendation ∧
    r1.trimester = r2.trimester ∧
    (∀ tn, pairFinding db tn A B = pairFinding db tn B A) := by
  unfold checkPregnancyInteractions at h1 h2
  rw [if_neg (List.cons_ne_nil A [B])] at h1
  rw [if_neg (List.cons_ne_nil B [A])] at h2
  cases hv : validateWeek w with
  | error e => rw [hv] at h1; exact Except.noConfusion h1
  | ok u =>
    cases u
    rw [hv] at h1 h2
    cases hTt : getTrimester w with
    | error e => rw [hTt] at h1; exact Except.noConfusion h1
    | ok t =>
      rw [hTt] at h1 h2
      dsimp only at h1 h2
      have hp2 : pairsOf [A, B] = [(A, B)] := rfl
      have hp2' : pairsOf [B, A] = [(B, A)] := rfl
      rw [hp2] at h1
      rw [hp2'] at h2
      simp only [List.foldl_cons, List.foldl_nil, soloStep_eq, pairStep_eq] at h1 h2
      injection h1 with e1
      injection h2 with e2
      subst e1
      subst e2
      have hsev : soloSevStep db t.number (soloSevStep db t.number "none" A) B =
          soloSevStep db t.number (soloSevStep db t.number "none" B) A :=
        soloSevStep_swap db t.number A B
      have hsevFinal : pairSevStep db t.number
            (soloSevStep db t.number (soloSevStep db t.number "none" A) B) A B =
          pairSevStep db t.number
            (soloSevStep db t.number (soloSevStep db t.number "none" B) A) B A := by
        unfold pairSevStep
        rw [hsev, pairFinding_swap]
      have hperm : (([] ++ soloFindList db t.number A ++ soloFindList db t.number B) ++
            pairFindList db t.number A B).Perm
          (([] ++ soloFindList db t.number B ++ soloFindList db t.number A) ++
            pairFindList db t.number B A) := by
        unfold pairFindList
        rw [pairFinding_swap db t.number B A]
        exact List.Perm.append_right _
          (by simp only [List.nil_append]; exact List.perm_append_comm)
      refine ⟨hperm, hperm.length_eq, hsevFinal, ?_, ?_, ?_, ?_, rfl,
        fun tn => pairFinding_swap db tn A B⟩
      · dsimp only; rw [hsevFinal]
      · dsimp only; rw [hsevFinal]
      · dsimp only; rw [hsevFinal]
      · dsimp only; rw [hsevFinal]

/-- The order-independent empty result over the empty store, input order a-b. -/
def c8resAB : InteractionResult :=
  ⟨20, 2, ["a", "b"], 0, [], "none", true, false, false,
    generateInteractionRecommendation "none"⟩

/-- The order-independent empty result over the empty store, input order b-a. -/
def c8resBA : InteractionResult :=
  ⟨20, 2, ["b", "a"], 0, [], "none", true, false, false,
    generateInteractionRecommendation "none"⟩

/-- C8 witness: the amended symmetry theorem applied over the empty store at
week 20. -/
theorem c8_symmetry_witness :
    c8resAB.interactions.Perm c8resBA.interactions ∧
    c8resAB.interactionsFound = c8resBA.interactionsFound ∧
    c8resAB.highestSeverity = c8resBA.highestSeverity ∧
    c8resAB.safe = c8resBA.safe ∧
    c8resAB.requiresProviderConsent = c8resBA.requiresProviderConsent ∧
    c8resAB.requiresObstetrician = c8resBA.requiresObstetrician ∧
    c8resAB.recommendation = c8resBA.recommendation ∧
    c8resAB.trimester = c8resBA.trimester ∧
    (∀ tn, pairFinding [] tn "a" "b" = pairFinding [] tn "b" "a") :=
  c8_symmetry [] "a" "b" 20 c8resAB c8resBA rfl rfl

/-- A plain category-A record used by several witnesses. -/
def medAcetaminophen : Medication :=
  ⟨"Acetaminophen", "Acetaminophen", ["Tylenol"], some ⟨some "A", none, none, none⟩⟩

/-- C7 witness: the amended characterization applied to a concrete category-A
record at week 20. -/
theorem c7_category_validity_witness :
    ((calculateRiskScore medAcetaminophen 20).isOk = true ↔
      effFdaCategory medAcetaminophen ∈ ["A", "B", "C", "D", "X"]) ∧
    (medAcetaminophen.pregnancyCategory.bind (fun pc => pc.fda) = none →
      effFdaCategory medAcetaminophen = "C") ∧
    FDA_CATEGORIES "C" = some ⟨"moderate", 50⟩ :=
  c7_category_validity medAcetaminophen 20 (by decide) (by decide) (by decide) (by decide)

/-- The full multi-medication result for the single found medication
`Acetaminophen` (queried by its brand name) at week 20. -/
def c1res : MultiResult :=
  ⟨20, 2, 1, [⟨true, "Acetaminophen", some 10, "low", some "A", some true⟩], [],
    "low", 10, (10 : WithBot ℤ), true, false, false, false, false⟩

theorem medAcetaminophen_risk : calculateRiskScore medAcetaminophen 20 = .ok 10 := by
  simp [calculateRiskScore, validateMedication, medAcetaminophen, validateWeek, getTrimester,
    TRIMESTERS, isCriticalPeriod, criticalWeeks, effFdaCategory, jsOrStr, FDA_CATEGORIES,
    trimesterDataFor, jsRound]
  norm_num

theorem c1single_eval :
    calculateSingleMedicationRisk [medAcetaminophen] "Tylenol" 20 =
      .ok ⟨true, "Acetaminophen", some 10, "low", some "A", some true⟩ := by
  have hfind : findMedication [medAcetaminophen] "Tylenol" = some medAcetaminophen := rfl
  unfold calculateSingleMedicationRisk checkMedicationSafety
  rw [if_neg (by decide : ¬("Tylenol" = "")), validateWeek_ok (by decide) (by decide), hfind,
    getTrimester_ok_second (by decide) (by decide)]
  dsimp only
  rw [show isCriticalPeriod 20 =
      .ok ⟨false, "Not in a specifically critical period", "normal"⟩ from rfl,
    medAcetaminophen_risk]
  rfl

theorem c1res_eval :
    calculateMultipleMedicationRisk [medAcetaminophen] ["Tylenol"] 20 = .ok c1res := by
  have hmapM : (["Tylenol"] : List String).mapM
      (fun n => calculateSingleMedicationRisk [medAcetaminophen] n 20) =
      .ok [⟨true, "Acetaminophen", some 10, "low", some "A", some true⟩] := by
    rw [List.mapM_cons, c1single_eval, except_ok_bind]
    rfl
  have hic : checkPregnancyInteractions [medAcetaminophen] ["Tylenol"] 20 =
      .ok ⟨20, 2, ["Tylenol"], 0, [], "none", true, false, false,
        generateInteractionRecommendation "none"⟩ := rfl
  unfold calculateMultipleMedicationRisk
  rw [if_neg (by decide), validateWeek_ok (by decide) (by decide)]
  rw [getTrimester_ok_second (by decide) (by decide)]
  rw [hmapM, hic]
  simp only [calculateCompositeScore, getRiskLevelFromScore, RISK_THRESHOLDS, jsMax, jsRound,
    interactionPenalty, c1res]
  norm_num
  decide

/-- C1 witness: the composite-formula theorem applied to the concrete
single-medication pipeline run behind `c1res`. -/
theorem c1_composite_formula_witness :
    c1res.riskScore = specCompositeScore
      ((c1res.medicationRisks.filter (·.found)).map fun m => m.riskScore.getD 0)
      (c1res.interactionRisks.map fun f => f.rule.severity) :=
  c1_composite_formula [medAcetaminophen] ["Tylenol"] 20 c1res c1res_eval (by decide)

theorem mapM_ok_cons_elim {α β : Type} {f : α → Except String β} {a : α} {l : List α}
    {bs : List β} (h : (a :: l).mapM f = .ok bs) :
    ∃ b bs', f a = .ok b ∧ l.mapM f = .ok bs' ∧ bs = b :: bs' := by
  rw [List.mapM_cons] at h
  cases hfa : f a with
  | error e => rw [hfa] at h; exact Except.noConfusion h
  | ok b =>
    rw [hfa, except_ok_bind] at h
    cases hrest : l.mapM f with
    | error e => rw [hrest] at h; exact Except.noConfusion h
    | ok bs0 =>
      rw [hrest, except_ok_bind] at h
      injection h with e
      exact ⟨b, bs0, rfl, rfl, e.symm⟩

theorem mapM_ok_nil_elim {α β : Type} {f : α → Except String β} {bs : List β}
    (h : ([] : List α).mapM f = .ok bs) : bs = [] := by
  rw [List.mapM_nil] at h
  injection h with e
  exact e.symm

/-- The uncapped per-medication score before trimester-override clamps: the FDA
baseline times the trimester multiplier times the critical-period escalation. -/
def plainScore (ci : CategoryInfo) (t : Trimester) (cr : CriticalInfo) : ℚ :=
  if cr.isCritical then
    if cr.severity = "critical" then ci.baseScore * t.riskMultiplier * (13/10)
    else if cr.severity = "high" then ci.baseScore * t.riskMultiplier * (12/10)
    else if cr.severity = "moderate" then ci.baseScore * t.riskMultiplier * (11/10)
    else ci.baseScore * t.riskMultiplier
  else ci.baseScore * t.riskMultiplier

/-- The trimester-override clamp step of `calculateRiskScore`. -/
def applyOverride (td : Option TrimesterData) (P : ℚ) : ℚ :=
  match td with
  | none => P
  | some td =>
    let s := if td.safe = some false then max P 70 else P
    if td.risk = some "critical" then max s 85
    else if td.risk = some "high" then max s 65
    else if td.risk = some "moderate" then max s 45
    else if td.risk = some "low" then min s 30
    else s

theorem calculateRiskScore_ok_formula {m : Medication} {w : ℤ} {s : ℤ}
    (h : calculateRiskScore m w = .ok s) :
    ∃ t cr ci, getTrimester w = .ok t ∧ isCriticalPeriod w = .ok cr ∧
      FDA_CATEGORIES (effFdaCategory m) = some ci ∧
      s = min (jsRound (applyOverride (trimesterDataFor m t.number) (plainScore ci t cr))) 100 := by
  unfold calculateRiskScore at h
  cases hvm : validateMedication m with
  | error e => rw [hvm] at h; exact Except.noConfusion h
  | ok u =>
    cases u
    rw [hvm] at h
    cases hv : validateWeek w with
    | error e => rw [hv] at h; exact Except.noConfusion h
    | ok u =>
      cases u
      rw [hv] at h
      cases htr : getTrimester w with
      | error e => rw [htr] at h; exact Except.noConfusion h
      | ok t =>
        rw [htr] at h
        cases hcr : isCriticalPeriod w with
        | error e => rw [hcr] at h; exact Except.noConfusion h
        | ok cr =>
          rw [hcr] at h
          dsimp only at h
          cases hF : FDA_CATEGORIES (effFdaCategory m) with
          | none => rw [hF] at h; exact Except.noConfusion h
          | some ci =>
            rw [hF] at h
            dsimp only at h
            injection h with e
            exact ⟨t, cr, ci, rfl, rfl, rfl, e.symm⟩

/-- For a record whose override does not declare `safe == false`, a capped
score of at most 40 is either the capped plain score (no clamp applied, or an
inert clamp) or the `low`-tier ceiling `min(plain, 30)` — the high floors
would push it above 40. -/
theorem safe_clamped_cases (P : ℚ) (td : Option TrimesterData)
    (hov : td.bind (fun d => d.safe) ≠ some false)
    (hle : min (jsRound (applyOverride td P)) 100 ≤ 40) :
    min (jsRound (applyOverride td P)) 100 = min (jsRound P) 100 ∨
    min (jsRound (applyOverride td P)) 100 = jsRound (min P 30) := by
  cases td with
  | none => exact Or.inl rfl
  | some td =>
    have hsafe' : ¬ td.safe = some false := by simpa using hov
    unfold applyOverride at hle ⊢
    dsimp only at hle ⊢
    rw [if_neg hsafe'] at hle ⊢
    by_cases h1 : td.risk = some "critical"
    · rw [if_pos h1] at hle
      exfalso
      have h85 : (85:ℤ) ≤ min (jsRound (max P 85)) 100 :=
        le_min (le_jsRound_of_le (by push_cast; exact le_max_right P 85)) (by norm_num)
      omega
    rw [if_neg h1] at hle ⊢
    by_cases h2 : td.risk = some "high"
    · rw [if_pos h2] at hle
      exfalso
      have h65 : (65:ℤ) ≤ min (jsRound (max P 65)) 100 :=
        le_min (le_jsRound_of_le (by push_cast; exact le_max_right P 65)) (by norm_num)
      omega
    rw [if_neg h2] at hle ⊢
    by_cases h3 : td.risk = some "moderate"
    · rw [if_pos h3] at hle
      exfalso
      have h45 : (45:ℤ) ≤ min (jsRound (max P 45)) 100 :=
        le_min (le_jsRound_of_le (by push_cast; exact le_max_right P 45)) (by norm_num)
      omega
    rw [if_neg h3] at hle ⊢
    by_cases h4 : td.risk = some "low"
    · rw [if_pos h4]
      refine Or.inr (min_eq_left ?_)
      refine le_trans (jsRound_le_of_le ?_) (by norm_num : (30:ℤ) ≤ 100)
      push_cast
      exact min_le_right P 30
    · rw [if_neg h4]
      exact Or.inl rfl

theorem jsRound_thirty : jsRound (30:ℚ) = 30 := by norm_num [jsRound]

/-- Two safe capped scores over the same uncapped plain score differ by at
most 10 (the spread between the capped plain value, at most 40 for a safe
medication, and the `low`-ceiling value, which is 30 once the plain score
reaches 30 and coincides with it below). -/
theorem safe_score_diff {P : ℚ} {s1 s2 : ℤ}
    (h1 : s1 = min (jsRound P) 100 ∨ s1 = jsRound (min P 30))
    (h2 : s2 = min (jsRound P) 100 ∨ s2 = jsRound (min P 30))
    (hle1 : s1 ≤ 40) : s1 - s2 ≤ 10 := by
  rcases h1 with h1 | h1 <;> rcases h2 with h2 | h2 <;> subst h1 <;> subst h2
  · omega
  · by_cases hP : (30:ℚ) ≤ P
    · have h30 : jsRound (min P 30) = 30 := by rw [min_eq_right hP, jsRound_thirty]
      omega
    · push_neg at hP
      have hmin : min P 30 = P := min_eq_left hP.le
      have hj : jsRound P ≤ 30 := jsRound_le_of_le (by push_cast; linarith)
      rw [hmin, min_eq_left (le_trans hj (by norm_num))]
      omega
  · have hle' : jsRound (min P 30) ≤ min (jsRound P) 100 := by
      refine le_min (jsRound_mono (min_le_left P 30)) ?_
      exact le_trans (jsRound_le_of_le (min_le_right P 30)) (by norm_num)
    omega
  · omega

/-- The solo-then-pairwise fold of `checkPregnancyInteractions`. -/
def interactionPass (db : List Medication) (tn : ℕ) (names : List String) :
    List Finding × String :=
  (pairsOf names).foldl (pairStep db tn) (names.foldl (soloStep db tn) ([], "none"))

theorem checkPregnancyInteractions_ok_formula {db : List Medication} {names : List String}
    {w : ℤ} {t : Trimester} (hne : names ≠ []) (ht : getTrimester w = .ok t) :
    checkPregnancyInteractions db names w = .ok
      { weekOfPregnancy := w
        trimester := t.number
        medications := names
        interactionsFound := (interactionPass db t.number names).1.length
        interactions := (interactionPass db t.number names).1
        highestSeverity := (interactionPass db t.number names).2
        safe := (interactionPass db t.number names).2 == "none"
        requiresProviderConsent := (interactionPass db t.number names).2 == "high" ||
          (interactionPass db t.number names).2 == "critical"
        requiresObstetrician := (interactionPass db t.number names).2 == "critical"
        recommendation := generateInteractionRecommendation
          (interactionPass db t.number names).2 } := by
  unfold checkPregnancyInteractions interactionPass
  rw [if_neg hne, getTrimester_ok_validateWeek ht, ht]

theorem interactionPass_fst_two (db : List Medication) (tn : ℕ) (n1 n2 : String) :
    (interactionPass db tn [n1, n2]).1 =
      soloFindList db tn n1 ++ soloFindList db tn n2 ++ pairFindList db tn n1 n2 := by
  unfold interactionPass
  rw [show pairsOf [n1, n2] = [(n1, n2)] from rfl]
  simp only [List.foldl_cons, List.foldl_nil, soloStep_eq, pairStep_eq, List.nil_append]

theorem interactionPass_fst_four (db : List Medication) (tn : ℕ) (n1 n2 n3 n4 : String) :
    (interactionPass db tn [n1, n2, n3, n4]).1 =
      soloFindList db tn n1 ++ soloFindList db tn n2 ++ soloFindList db tn n3 ++
      soloFindList db tn n4 ++ pairFindList db tn n1 n2 ++ pairFindList db tn n1 n3 ++
      pairFindList db tn n1 n4 ++ pairFindList db tn n2 n3 ++ pairFindList db tn n2 n4 ++
      pairFindList db tn n3 n4 := by
  unfold interactionPass
  rw [show pairsOf [n1, n2, n3, n4] =
    [(n1, n2), (n1, n3), (n1, n4), (n2, n3), (n2, n4), (n3, n4)] from rfl]
  simp only [List.foldl_cons, List.foldl_nil, soloStep_eq, pairStep_eq, List.nil_append]

/-- The total severity penalty the composite calculator adds for a finding list. -/
def sevPenaltySum (l : List Finding) : ℚ :=
  (l.map fun f => interactionPenalty f.rule.severity).sum

theorem interactionPenalty_nonneg (s : String) : 0 ≤ interactionPenalty s := by
  unfold interactionPenalty
  split_ifs <;> norm_num

theorem sevPenaltySum_nonneg (l : List Finding) : 0 ≤ sevPenaltySum l := by
  induction l with
  | nil => simp [sevPenaltySum]
  | cons f l ih =>
    unfold sevPenaltySum at ih ⊢
    rw [List.map_cons, List.sum_cons]
    exact add_nonneg (interactionPenalty_nonneg _) ih

theorem sevPenaltySum_append (l1 l2 : List Finding) :
    sevPenaltySum (l1 ++ l2) = sevPenaltySum l1 + sevPenaltySum l2 := by
  unfold sevPenaltySum
  rw [List.map_append, List.sum_append]

/-- The composite score for a list in which every medication was found. -/
theorem calculateCompositeScore_allFound (risks : List MedRisk) (ic : InteractionResult)
    (h : ∀ mr ∈ risks, mr.found = true) (hne : risks ≠ []) :
    calculateCompositeScore risks ic = min (jsRound (
      ((risks.map fun m => ((m.riskScore.getD 0 : ℤ) : ℚ)).foldl max 0) * (6/10) +
      ((risks.map fun m => ((m.riskScore.getD 0 : ℤ) : ℚ)).sum / (risks.length : ℚ)) * (4/10) +
      sevPenaltySum ic.interactions +
      (if 3 ≤ risks.length then ((risks.length : ℚ) - 2) * 3 else 0))) 100 := by
  have hfilter : risks.filter (·.found) = risks :=
    List.filter_eq_self.mpr (fun a ha => by simpa using h a ha)
  unfold calculateCompositeScore
  rw [hfilter, if_neg hne]
  dsimp only
  rw [foldl_add_eq]
  refine congrArg (fun q : ℚ => min (jsRound q) 100) ?_
  unfold sevPenaltySum
  by_cases h3 : 3 ≤ risks.length
  · rw [if_pos h3, if_pos h3]
  · rw [if_neg h3, if_neg h3]
    ring

set_option maxHeartbeats 2000000 in
/-- C9: the polypharmacy-monotonicity instance of the claim.  For four
medications that are all found and all `safe` (in the single-medication sense)
and that share one FDA category, the composite score of the four at a fixed
week is at least the composite score of the first two. -/
theorem c9_polypharmacy (db : List Medication) (n1 n2 n3 n4 : String) (w : ℤ)
    (r4 r2 : MultiResult)
    (h4 : calculateMultipleMedicationRisk db [n1, n2, n3, n4] w = .ok r4)
    (h2 : calculateMultipleMedicationRisk db [n1, n2] w = .ok r2)
    (hfound : ∀ mr ∈ r4.medicationRisks, mr.found = true)
    (hsafe : ∀ mr ∈ r4.medicationRisks, mr.safe = some true)
    (hcat : ∃ c, ∀ mr ∈ r4.medicationRisks, mr.fdaCategory = some c) :
    r2.riskScore ≤ r4.riskScore := by
  obtain ⟨ic4, hic4, hm4, hir4, hrs4⟩ := calculateMultipleMedicationRisk_ok_elim h4
  obtain ⟨ic2, hic2, hm2, hir2, hrs2⟩ := calculateMultipleMedicationRisk_ok_elim h2
  obtain ⟨mr1, bs1, hf1, hm4a, hb1⟩ := mapM_ok_cons_elim hm4
  obtain ⟨mr2, bs2, hf2, hm4b, hb2⟩ := mapM_ok_cons_elim hm4a
  obtain ⟨mr3, bs3, hf3, hm4c, hb3⟩ := mapM_ok_cons_elim hm4b
  obtain ⟨mr4, bs4, hf4, hm4d, hb4⟩ := mapM_ok_cons_elim hm4c
  have hb5 := mapM_ok_nil_elim hm4d
  have hr4m : r4.medicationRisks = [mr1, mr2, mr3, mr4] := by
    rw [hb1, hb2, hb3, hb4, hb5]
  obtain ⟨mr1', cs1, hf1', hm2a, hc1⟩ := mapM_ok_cons_elim hm2
  obtain ⟨mr2', cs2, hf2', hm2b, hc2⟩ := mapM_ok_cons_elim hm2a
  have hc3 := mapM_ok_nil_elim hm2b
  have e1 : mr1' = mr1 := by rw [hf1] at hf1'; exact (Except.ok.inj hf1').symm
  have e2 : mr2' = mr2 := by rw [hf2] at hf2'; exact (Except.ok.inj hf2').symm
  have hr2m : r2.medicationRisks = [mr1, mr2] := by rw [hc1, hc2, hc3, e1, e2]
  have hmem1 : mr1 ∈ r4.medicationRisks := by rw [hr4m]; simp
  have hmem2 : mr2 ∈ r4.medicationRisks := by rw [hr4m]; simp
  have hmem3 : mr3 ∈ r4.medicationRisks := by rw [hr4m]; simp
  have hmem4 : mr4 ∈ r4.medicationRisks := by rw [hr4m]; simp
  obtain ⟨fs1, hcs1, hEq1⟩ := calculateSingleMedicationRisk_found_elim hf1 (hfound mr1 hmem1)
  obtain ⟨fs2, hcs2, hEq2⟩ := calculateSingleMedicationRisk_found_elim hf2 (hfound mr2 hmem2)
  obtain ⟨fs3, hcs3, hEq3⟩ := calculateSingleMedicationRisk_found_elim hf3 (hfound mr3 hmem3)
  obtain ⟨fs4, hcs4, hEq4⟩ := calculateSingleMedicationRisk_found_elim hf4 (hfound mr4 hmem4)
  obtain ⟨med1, t1, hfind1, ht1, hrisk1, hcatEq1, hsafeEq1, _⟩ :=
    checkMedicationSafety_found_elim hcs1
  obtain ⟨med2, t2, hfind2, ht2, hrisk2, hcatEq2, hsafeEq2, _⟩ :=
    checkMedicationSafety_found_elim hcs2
  obtain ⟨med3, t3, hfind3, ht3, hrisk3, hcatEq3, hsafeEq3, _⟩ :=
    checkMedicationSafety_found_elim hcs3
  obtain ⟨med4, t4, hfind4, ht4, hrisk4, hcatEq4, hsafeEq4, _⟩ :=
    checkMedicationSafety_found_elim hcs4
  have et2 : t1 = t2 := by rw [ht1] at ht2; exact Except.ok.inj ht2
  subst et2
  have et3 : t1 = t3 := by rw [ht1] at ht3; exact Except.ok.inj ht3
  subst et3
  have et4 : t1 = t4 := by rw [ht1] at ht4; exact Except.ok.inj ht4
  subst et4
  obtain ⟨c, hc⟩ := hcat
  have hcat1 : effFdaCategory med1 = c := by
    have hx := hc mr1 hmem1
    rw [hEq1] at hx
    exact hcatEq1 ▸ (Option.some.inj hx)
  have hcat2 : effFdaCategory med2 = c := by
    have hx := hc mr2 hmem2
    rw [hEq2] at hx
    exact hcatEq2 ▸ (Option.some.inj hx)
  have hcat3 : effFdaCategory med3 = c := by
    have hx := hc mr3 hmem3
    rw [hEq3] at hx
    exact hcatEq3 ▸ (Option.some.inj hx)
  have hcat4 : effFdaCategory med4 = c := by
    have hx := hc mr4 hmem4
    rw [hEq4] at hx
    exact hcatEq4 ▸ (Option.some.inj hx)
  have hSafeAnd1 : (decide (fs1.riskScore ≤ 40) &&
      ((trimesterDataFor med1 t1.number).bind (fun d => d.safe)) != some false) = true := by
    rw [← hsafeEq1]
    have hx := hsafe mr1 hmem1
    rw [hEq1] at hx
    exact Option.some.inj hx
  have hSafeAnd2 : (decide (fs2.riskScore ≤ 40) &&
      ((trimesterDataFor med2 t1.number).bind (fun d => d.safe)) != some false) = true := by
    rw [← hsafeEq2]
    have hx := hsafe mr2 hmem2
    rw [hEq2] at hx
    exact Option.some.inj hx
  have hSafeAnd3 : (decide (fs3.riskScore ≤ 40) &&
      ((trimesterDataFor med3 t1.number).bind (fun d => d.safe)) != some false) = true := by
    rw [← hsafeEq3]
    have hx := hsafe mr3 hmem3
    rw [hEq3] at hx
    exact Option.some.inj hx
  have hSafeAnd4 : (decide (fs4.riskScore ≤ 40) &&
      ((trimesterDataFor med4 t1.number).bind (fun d => d.safe)) != some false) = true := by
    rw [← hsafeEq4]
    have hx := hsafe mr4 hmem4
    rw [hEq4] at hx
    exact Option.some.inj hx
  simp only [Bool.and_eq_true, decide_eq_true_eq,
    bne_iff_ne] at hSafeAnd1 hSafeAnd2 hSafeAnd3 hSafeAnd4
  obtain ⟨hle1, hov1⟩ := hSafeAnd1
  obtain ⟨hle2, hov2⟩ := hSafeAnd2
  obtain ⟨hle3, hov3⟩ := hSafeAnd3
  obtain ⟨hle4, hov4⟩ := hSafeAnd4
  obtain ⟨t1', cr1, ci1, ht1', hcr1, hF1, hform1⟩ := calculateRiskScore_ok_formula hrisk1
  have et1' : t1 = t1' := by rw [ht1] at ht1'; exact Except.ok.inj ht1'
  subst et1'
  obtain ⟨t2', cr2, ci2, ht2', hcr2, hF2, hform2⟩ := calculateRiskScore_ok_formula hrisk2
  have et2' : t1 = t2' := by rw [ht1] at ht2'; exact Except.ok.inj ht2'
  subst et2'
  obtain ⟨t3', cr3, ci3, ht3', hcr3, hF3, hform3⟩ := calculateRiskScore_ok_formula hrisk3
  have et3' : t1 = t3' := by rw [ht1] at ht3'; exact Except.ok.inj ht3'
  subst et3'
  obtain ⟨t4', cr4, ci4, ht4', hcr4, hF4, hform4⟩ := calculateRiskScore_ok_formula hrisk4
  have et4' : t1 = t4' := by rw [ht1] at ht4'; exact Except.ok.inj ht4'
  subst et4'
  have ecr2 : cr1 = cr2 := by rw [hcr1] at hcr2; exact Except.ok.inj hcr2
  subst ecr2
  have ecr3 : cr1 = cr3 := by rw [hcr1] at hcr3; exact Except.ok.inj hcr3
  subst ecr3
  have ecr4 : cr1 = cr4 := by rw [hcr1] at hcr4; exact Except.ok.inj hcr4
  subst ecr4
  rw [hcat1] at hF1
  rw [hcat2] at hF2
  rw [hcat3] at hF3
  rw [hcat4] at hF4
  have eci2 : ci1 = ci2 := by rw [hF1] at hF2; exact Option.some.inj hF2
  subst eci2
  have eci3 : ci1 = ci3 := by rw [hF1] at hF3; exact Option.some.inj hF3
  subst eci3
  have eci4 : ci1 = ci4 := by rw [hF1] at hF4; exact Option.some.inj hF4
  subst eci4
  have hcase1 := safe_clamped_cases (plainScore ci1 t1 cr1) (trimesterDataFor med1 t1.number)
    hov1 (hform1 ▸ hle1)
  have hcase2 := safe_clamped_cases (plainScore ci1 t1 cr1) (trimesterDataFor med2 t1.number)
    hov2 (hform2 ▸ hle2)
  have hcase3 := safe_clamped_cases (plainScore ci1 t1 cr1) (trimesterDataFor med3 t1.number)
    hov3 (hform3 ▸ hle3)
  have hcase4 := safe_clamped_cases (plainScore ci1 t1 cr1) (trimesterDataFor med4 t1.number)
    hov4 (hform4 ▸ hle4)
  rw [← hform1] at hcase1
  rw [← hform2] at hcase2
  rw [← hform3] at hcase3
  rw [← hform4] at hcase4
  have d13 : fs1.riskScore - fs3.riskScore ≤ 10 := safe_score_diff hcase1 hcase3 hle1
  have d24 : fs2.riskScore - fs4.riskScore ≤ 10 := safe_score_diff hcase2 hcase4 hle2
  have hint4 : ic4.interactions = (interactionPass db t1.number [n1, n2, n3, n4]).1 := by
    have hform := @checkPregnancyInteractions_ok_formula db [n1, n2, n3, n4] w t1
      (show [n1, n2, n3, n4] ≠ [] by simp) ht1
    rw [hic4] at hform
    rw [Except.ok.inj hform]
  have hint2 : ic2.interactions = (interactionPass db t1.number [n1, n2]).1 := by
    have hform := @checkPregnancyInteractions_ok_formula db [n1, n2] w t1
      (show [n1, n2] ≠ [] by simp) ht1
    rw [hic2] at hform
    rw [Except.ok.inj hform]
  have hall4 : ∀ mr ∈ [mr1, mr2, mr3, mr4], mr.found = true := by
    intro mr hmr
    refine hfound mr ?_
    rw [hr4m]
    exact hmr
  have hall2 : ∀ mr ∈ [mr1, mr2], mr.found = true := by
    intro mr hmr
    simp only [List.mem_cons, List.not_mem_nil, or_false] at hmr
    rcases hmr with rfl | rfl
    · exact hfound mr hmem1
    · exact hfound mr hmem2
  rw [hrs4, hrs2, hr4m, hr2m]
  rw [calculateCompositeScore_allFound [mr1, mr2, mr3, mr4] ic4 hall4 (by simp)]
  rw [calculateCompositeScore_allFound [mr1, mr2] ic2 hall2 (by simp)]
  rw [hEq1, hEq2, hEq3, hEq4, hint4, hint2, interactionPass_fst_four, interactionPass_fst_two]
  simp only [sevPenaltySum_append, List.map_cons, List.map_nil, List.foldl_cons,
    List.foldl_nil, List.sum_cons, List.sum_nil, List.length_cons, List.length_nil,
    Option.getD_some]
  rw [if_pos (by norm_num : 3 ≤ 0 + 1 + 1 + 1 + 1), if_neg (by norm_num : ¬ 3 ≤ 0 + 1 + 1)]
  refine min_le_min (jsRound_mono ?_) le_rfl
  have qd13 : ((fs1.riskScore : ℤ) : ℚ) - ((fs3.riskScore : ℤ) : ℚ) ≤ 10 := by
    exact_mod_cast d13
  have qd24 : ((fs2.riskScore : ℤ) : ℚ) - ((fs4.riskScore : ℤ) : ℚ) ≤ 10 := by
    exact_mod_cast d24
  have hmax : max (max 0 ((fs1.riskScore : ℤ) : ℚ)) ((fs2.riskScore : ℤ) : ℚ) ≤
      max (max (max (max 0 ((fs1.riskScore : ℤ) : ℚ)) ((fs2.riskScore : ℤ) : ℚ))
        ((fs3.riskScore : ℤ) : ℚ)) ((fs4.riskScore : ℤ) : ℚ) :=
    le_trans (le_max_left _ _) (le_max_left _ _)
  have hp1 := sevPenaltySum_nonneg (soloFindList db t1.number n3)
  have hp2 := sevPenaltySum_nonneg (soloFindList db t1.number n4)
  have hp3 := sevPenaltySum_nonneg (pairFindList db t1.number n1 n3)
  have hp4 := sevPenaltySum_nonneg (pairFindList db t1.number n1 n4)
  have hp5 := sevPenaltySum_nonneg (pairFindList db t1.number n2 n3)
  have hp6 := sevPenaltySum_nonneg (pairFindList db t1.number n2 n4)
  have hp7 := sevPenaltySum_nonneg (pairFindList db t1.number n3 n4)
  push_cast
  linarith

/-- The single-medication entry shared by the C9 witness lists. -/
def tylenolRisk : MedRisk := ⟨true, "Acetaminophen", some 10, "low", some "A", some true⟩

/-- The four-copy multi-medication result behind the C9 witness. -/
def c9res4 : MultiResult :=
  ⟨20, 2, 4, [tylenolRisk, tylenolRisk, tylenolRisk, tylenolRisk], [],
    "low", 16, (10 : WithBot ℤ), true, false, false, false, false⟩

/-- The two-copy multi-medication result behind the C9 witness. -/
def c9res2 : MultiResult :=
  ⟨20, 2, 2, [tylenolRisk, tylenolRisk], [],
    "low", 10, (10 : WithBot ℤ), true, false, false, false, false⟩

theorem c9res4_eval :
    calculateMultipleMedicationRisk [medAcetaminophen]
      ["Tylenol", "Tylenol", "Tylenol", "Tylenol"] 20 = .ok c9res4 := by
  have hmapM : (["Tylenol", "Tylenol", "Tylenol", "Tylenol"] : List String).mapM
      (fun n => calculateSingleMedicationRisk [medAcetaminophen] n 20) =
      .ok [tylenolRisk, tylenolRisk, tylenolRisk, tylenolRisk] := by
    rw [List.mapM_cons, c1single_eval, except_ok_bind, List.mapM_cons, c1single_eval,
      except_ok_bind, List.mapM_cons, c1single_eval, except_ok_bind, List.mapM_cons,
      c1single_eval, except_ok_bind]
    rfl
  have hic : checkPregnancyInteractions [medAcetaminophen]
      ["Tylenol", "Tylenol", "Tylenol", "Tylenol"] 20 =
      .ok ⟨20, 2, ["Tylenol", "Tylenol", "Tylenol", "Tylenol"], 0, [], "none", true, false,
        false, generateInteractionRecommendation "none"⟩ := rfl
  unfold calculateMultipleMedicationRisk
  rw [if_neg (by decide), validateWeek_ok (by decide) (by decide),
    getTrimester_ok_second (by decide) (by decide), hmapM, hic]
  simp only [calculateCompositeScore, getRiskLevelFromScore, RISK_THRESHOLDS, jsMax, jsRound,
    interactionPenalty, c9res4, tylenolRisk]
  norm_num
  decide

theorem c9res2_eval :
    calculateMultipleMedicationRisk [medAcetaminophen] ["Tylenol", "Tylenol"] 20 =
      .ok c9res2 := by
  have hmapM : (["Tylenol", "Tylenol"] : List String).mapM
      (fun n => calculateSingleMedicationRisk [medAcetaminophen] n 20) =
      .ok [tylenolRisk, tylenolRisk] := by
    rw [List.mapM_cons, c1single_eval, except_ok_bind, List.mapM_cons, c1single_eval,
      except_ok_bind]
    rfl
  have hic : checkPregnancyInteractions [medAcetaminophen] ["Tylenol", "Tylenol"] 20 =
      .ok ⟨20, 2, ["Tylenol", "Tylenol"], 0, [], "none", true, false,
        false, generateInteractionRecommendation "none"⟩ := rfl
  unfold calculateMultipleMedicationRisk
  rw [if_neg (by decide), validateWeek_ok (by decide) (by decide),
    getTrimester_ok_second (by decide) (by decide), hmapM, hic]
  simp only [calculateCompositeScore, getRiskLevelFromScore, RISK_THRESHOLDS, jsMax, jsRound,
    interactionPenalty, c9res2, tylenolRisk]
  norm_num
  decide

/-- C9 witness: the polypharmacy monotonicity theorem applied to four copies of
a safe category-A medication at week 20 (composite 10 for two, 16 for four). -/
theorem c9_polypharmacy_witness : c9res2.riskScore ≤ c9res4.riskScore :=
  c9_polypharmacy [medAcetaminophen] "Tylenol" "Tylenol" "Tylenol" "Tylenol" 20 c9res4 c9res2
    c9res4_eval c9res2_eval
    (by intro mr hmr; simp [c9res4, tylenolRisk] at hmr; rw [hmr])
    (by intro mr hmr; simp [c9res4, tylenolRisk] at hmr; rw [hmr])
    ⟨"A", by intro mr hmr; simp [c9res4, tylenolRisk] at hmr; rw [hmr]⟩

end Bumpie
